import Mathlib

/-!
Shallow embedding of the tab geometry and layout engine of
`src/zellij-server/src/tab.rs` (a terminal multiplexer's pane manager),
together with proofs about the claims C1 - C10.

Modelling conventions:
* `usize` becomes `Nat`, `isize` becomes `Int`, `f64` percent values become `ℚ`
  (every f64 operation the embedded code performs on percents - halving, adding
  or subtracting 3.5, comparisons - is exact in binary floating point for the
  values that occur, so `ℚ` is a faithful model).
* The `BTreeMap<PaneId, Box<dyn Pane>>` becomes an association list kept in key
  order; iteration over `get_panes` is iteration over that list.
* `HashSet<usize>` values that are only ever queried through `get`/`contains`
  become `List Nat` (membership is all that matters).
* Panicking code paths (`unwrap` / `expect` on data that the callers guarantee)
  become `Option` results or inert default branches, as noted at each site.
* Fields of the real `Tab` and `Pane` that no claim touches (render flags,
  timestamps, content offsets, colours, channels) are not modelled; methods
  whose entire effect is on those fields are modelled as the identity, each
  with a comment saying so.
-/

/-- Constant from tab.rs line 34 (the spec calls it CURSOR_ASPECT = 4). -/
def cursorAspect : Nat := 4

/-- Constant MIN_TERMINAL_HEIGHT from tab.rs line 39. -/
def minTerminalHeight : Nat := 5

/-- Constant MIN_TERMINAL_WIDTH from tab.rs line 40. -/
def minTerminalWidth : Nat := 5

/-- Constant RESIZE_PERCENT = 3.5 from tab.rs line 42 (3.5 = 7/2 exactly). -/
def resizePercent : ℚ := mkRat 7 2

/-- Rust `as isize` on a non-negative f64 truncates toward zero; for the
non-negative rationals that occur here this is `num / den`. -/
def ratTruncToInt (q : ℚ) : Int := q.num / (q.den : Int)

/-- PaneId from zellij-server panes (declared outside src/):
`Terminal(RawFd) | Plugin(u32)`, totally ordered with Terminal before Plugin
(derived Ord on the Rust enum), used as the BTreeMap key. -/
inductive PaneId where
  | Terminal (fd : Nat)
  | Plugin (pid : Nat)
deriving DecidableEq, Repr

/-- Derived Ord on PaneId: variant order first, then the numeric payload. -/
def PaneId.le : PaneId → PaneId → Bool
  | .Terminal a, .Terminal b => decide (a ≤ b)
  | .Terminal _, .Plugin _ => true
  | .Plugin _, .Terminal _ => false
  | .Plugin a, .Plugin b => decide (a ≤ b)

/-- Modelled from the spec: `Constraint` of zellij-utils pane_size (not under
src/): a Dimension is `Fixed(n)` (absolute cells) or `Percent(p)` (share of the
parent axis). -/
inductive Constraint where
  | Fixed (n : Nat)
  | Percent (p : ℚ)
deriving DecidableEq, Repr

/-- Modelled from the spec: `Dimension` of zellij-utils pane_size (not under
src/): a constraint plus the cached cell count that `as_usize` reports; the
cache is (re)computed by the pane resizer, not by the operations modelled
here. -/
structure Dimension where
  constraint : Constraint
  inner : Nat
deriving DecidableEq, Repr

/-- Modelled from the spec: `Dimension::percent` constructor (fresh cache). -/
def Dimension.percentDim (p : ℚ) : Dimension := ⟨Constraint.Percent p, 0⟩

/-- Modelled from the spec: `Dimension::fixed` constructor. -/
def Dimension.fixedDim (n : Nat) : Dimension := ⟨Constraint.Fixed n, n⟩

/-- Modelled from the spec: `Dimension::as_usize` reports the cached cells. -/
def Dimension.asUsize (d : Dimension) : Nat := d.inner

/-- Modelled from the spec: `Dimension::as_percent`. -/
def Dimension.asPercent (d : Dimension) : Option ℚ :=
  match d.constraint with
  | .Percent p => some p
  | .Fixed _ => none

/-- Modelled from the spec: additive percent adjustment used by the resize
mutators of §4.2; Fixed dimensions ignore resize. -/
def Dimension.adjustPercent (d : Dimension) (delta : ℚ) : Dimension :=
  match d.constraint with
  | .Percent p => { d with constraint := .Percent (p + delta) }
  | .Fixed _ => d

/-- Modelled from the spec: `PaneGeom` of zellij-utils (not under src/):
`{x, y : ℕ; cols, rows : Dimension}`. -/
structure PaneGeom where
  x : Nat
  y : Nat
  rows : Dimension
  cols : Dimension
deriving DecidableEq, Repr

/-- Modelled from the spec: `PaneGeom::default()` is the whole display,
`Percent(100) × Percent(100)` at the origin (used by `apply_layout` as the
free space and by `toggle_active_pane_fullscreen` for the override size). -/
def PaneGeom.defaultGeom : PaneGeom :=
  ⟨0, 0, Dimension.percentDim 100, Dimension.percentDim 100⟩

/-- Viewport from zellij-utils (not under src/): the rectangle available to
selectable panes, in cells. -/
structure Viewport where
  x : Nat
  y : Nat
  rows : Nat
  cols : Nat
deriving DecidableEq, Repr

/-- Modelled from the spec: `Position` of zellij-utils (not under src/): a
screen coordinate, `line` an isize and `column` a usize. -/
structure Position where
  line : Int
  column : Nat
deriving DecidableEq, Repr

/-- Modelled from the spec: `PaneGeom::contains(position)` - rectangle
membership of a screen coordinate (Position arithmetic, component A). -/
def PaneGeom.containsPos (g : PaneGeom) (point : Position) : Bool :=
  decide (g.x ≤ point.column) && decide (point.column < g.x + g.cols.asUsize) &&
  decide ((g.y : Int) ≤ point.line) && decide (point.line < ((g.y + g.rows.asUsize : Nat) : Int))

/-- A pane as the claims see it: the polymorphic `Pane` trait object of tab.rs
restricted to the attributes the claims touch - id, base geometry, optional
geometry override (fullscreen), and the selectable flag.  Render flags,
timestamps, content offsets and colours are outside the model. -/
structure Pane where
  pid : PaneId
  geom : PaneGeom
  geomOverride : Option PaneGeom
  selectable : Bool
deriving DecidableEq, Repr

/-- Modelled from the spec: the current geometry a pane reports - the override
when one is installed, otherwise the base geometry (§4.2: the override
"replaces its base geometry until cleared"). -/
def Pane.currentGeom (p : Pane) : PaneGeom := p.geomOverride.getD p.geom

/-- Trait accessor `x()` (current geometry). -/
def Pane.x (p : Pane) : Nat := p.currentGeom.x

/-- Trait accessor `y()` (current geometry). -/
def Pane.y (p : Pane) : Nat := p.currentGeom.y

/-- Trait accessor `rows()` (current geometry, cached cells). -/
def Pane.rows (p : Pane) : Nat := p.currentGeom.rows.asUsize

/-- Trait accessor `cols()` (current geometry, cached cells). -/
def Pane.cols (p : Pane) : Nat := p.currentGeom.cols.asUsize

/-- Trait accessor `position_and_size()`: the base geometry. -/
def Pane.positionAndSize (p : Pane) : PaneGeom := p.geom

/-- Trait accessor `position_and_size_override()`. -/
def Pane.positionAndSizeOverride (p : Pane) : Option PaneGeom := p.geomOverride

/-- Trait default `min_width()` (tab.rs line 241). -/
def Pane.minWidth (_p : Pane) : Nat := minTerminalWidth

/-- Trait default `min_height()` (tab.rs line 244). -/
def Pane.minHeight (_p : Pane) : Nat := minTerminalHeight

/-- Trait default `contains` (tab.rs line 181): the override geometry when
present, else the base geometry, contains the point. -/
def Pane.containsPoint (p : Pane) (position : Position) : Bool :=
  match p.positionAndSizeOverride with
  | some positionAndSize => positionAndSize.containsPos position
  | none => p.positionAndSize.containsPos position

/-- Trait default `is_directly_right_of` (tab.rs line 201). -/
def Pane.isDirectlyRightOf (self other : Pane) : Bool :=
  decide (self.x = other.x + other.cols)

/-- Trait default `is_directly_left_of` (tab.rs line 204). -/
def Pane.isDirectlyLeftOf (self other : Pane) : Bool :=
  decide (self.x + self.cols = other.x)

/-- Trait default `is_directly_below` (tab.rs line 207). -/
def Pane.isDirectlyBelow (self other : Pane) : Bool :=
  decide (self.y = other.y + other.rows)

/-- Trait default `is_directly_above` (tab.rs line 210). -/
def Pane.isDirectlyAbove (self other : Pane) : Bool :=
  decide (self.y + self.rows = other.y)

/-- Trait default `horizontally_overlaps_with` (tab.rs lines 213-219): the
four-disjunct test on y-ranges, transcribed disjunct by disjunct. -/
def Pane.horizontallyOverlapsWith (self other : Pane) : Bool :=
  (decide (self.y ≥ other.y) && decide (self.y < other.y + other.rows))
  || (decide (self.y + self.rows ≤ other.y + other.rows)
      && decide (self.y + self.rows > other.y))
  || (decide (self.y ≤ other.y) && decide (self.y + self.rows ≥ other.y + other.rows))
  || (decide (other.y ≤ self.y) && decide (other.y + other.rows ≥ self.y + self.rows))

/-- Trait default `vertically_overlaps_with` (tab.rs lines 224-230). -/
def Pane.verticallyOverlapsWith (self other : Pane) : Bool :=
  (decide (self.x ≥ other.x) && decide (self.x < other.x + other.cols))
  || (decide (self.x + self.cols ≤ other.x + other.cols)
      && decide (self.x + self.cols > other.x))
  || (decide (self.x ≤ other.x) && decide (self.x + self.cols ≥ other.x + other.cols))
  || (decide (other.x ≤ self.x) && decide (other.x + other.cols ≥ self.x + self.cols))

/-- Modelled from the spec: the additive resize mutators of §4.2 adjust the
Percent constraint of the relevant axis by the delta and leave Fixed panes
alone; the cell coordinates are re-derived from the percents by the resizer
(§3), so the mutators themselves touch only the constraint.  They act on the
base geometry. `increase_width_right(Δ)`. -/
def Pane.increaseWidthRight (p : Pane) (c : ℚ) : Pane :=
  { p with geom := { p.geom with cols := p.geom.cols.adjustPercent c } }

/-- Modelled from the spec (§4.2): `increase_width_left(Δ)`. -/
def Pane.increaseWidthLeft (p : Pane) (c : ℚ) : Pane :=
  { p with geom := { p.geom with cols := p.geom.cols.adjustPercent c } }

/-- Modelled from the spec (§4.2): `reduce_width_right(Δ)`. -/
def Pane.reduceWidthRight (p : Pane) (c : ℚ) : Pane :=
  { p with geom := { p.geom with cols := p.geom.cols.adjustPercent (-c) } }

/-- Modelled from the spec (§4.2): `reduce_width_left(Δ)`. -/
def Pane.reduceWidthLeft (p : Pane) (c : ℚ) : Pane :=
  { p with geom := { p.geom with cols := p.geom.cols.adjustPercent (-c) } }

/-- Modelled from the spec (§4.2): `increase_height_down(Δ)`. -/
def Pane.increaseHeightDown (p : Pane) (c : ℚ) : Pane :=
  { p with geom := { p.geom with rows := p.geom.rows.adjustPercent c } }

/-- Modelled from the spec (§4.2): `increase_height_up(Δ)`. -/
def Pane.increaseHeightUp (p : Pane) (c : ℚ) : Pane :=
  { p with geom := { p.geom with rows := p.geom.rows.adjustPercent c } }

/-- Modelled from the spec (§4.2): `reduce_height_down(Δ)`. -/
def Pane.reduceHeightDown (p : Pane) (c : ℚ) : Pane :=
  { p with geom := { p.geom with rows := p.geom.rows.adjustPercent (-c) } }

/-- Modelled from the spec (§4.2): `reduce_height_up(Δ)`. -/
def Pane.reduceHeightUp (p : Pane) (c : ℚ) : Pane :=
  { p with geom := { p.geom with rows := p.geom.rows.adjustPercent (-c) } }

/-- Modelled from the spec (§4.2): `change_pos_and_size` replaces the base
geometry. -/
def Pane.changePosAndSize (p : Pane) (positionAndSize : PaneGeom) : Pane :=
  { p with geom := positionAndSize }

/-- Modelled from the spec (§4.2): `override_size_and_position` installs a
geometry override. -/
def Pane.overrideSizeAndPosition (p : Pane) (paneGeom : PaneGeom) : Pane :=
  { p with geomOverride := some paneGeom }

/-- Modelled from the spec (§4.2): `reset_size_and_position_override`. -/
def Pane.resetSizeAndPositionOverride (p : Pane) : Pane :=
  { p with geomOverride := none }

/-- split_vertically (tab.rs lines 47-63): a Fixed cols dimension is
unsplittable; a Percent(p) cols dimension yields two geometries with
`cols = Percent(p/2)`, the second shifted right by one cell. -/
def splitVertically (rect : PaneGeom) : Option (PaneGeom × PaneGeom) :=
  match rect.cols.constraint with
  | .Fixed _ => none
  | .Percent p =>
    let firstRect : PaneGeom := { rect with cols := Dimension.percentDim (p / 2) }
    let secondRect : PaneGeom := { rect with x := firstRect.x + 1, cols := firstRect.cols }
    some (firstRect, secondRect)

/-- split_horizontally (tab.rs lines 65-81): symmetric on rows and y. -/
def splitHorizontally (rect : PaneGeom) : Option (PaneGeom × PaneGeom) :=
  match rect.rows.constraint with
  | .Fixed _ => none
  | .Percent p =>
    let firstRect : PaneGeom := { rect with rows := Dimension.percentDim (p / 2) }
    let secondRect : PaneGeom := { rect with y := firstRect.y + 1, rows := firstRect.rows }
    some (firstRect, secondRect)

/-- pane_content_offset (tab.rs lines 83-100). -/
def paneContentOffset (positionAndSize : PaneGeom) (viewport : Viewport) : Nat × Nat :=
  let columnsOffset :=
    if positionAndSize.x + positionAndSize.cols.asUsize < viewport.cols then 1 else 0
  let rowsOffset :=
    if positionAndSize.y + positionAndSize.rows.asUsize < viewport.rows then 1 else 0
  (columnsOffset, rowsOffset)

/-- Messages the tab sends to the PTY host; only ClosePane matters to the
claims. -/
inductive PtyInstruction where
  | ClosePane (id : PaneId)
deriving DecidableEq, Repr

/-- The Tab state (tab.rs lines 102-121) restricted to the fields the claims
touch: the pane map (association list in BTreeMap key order), the hidden set,
the active pane id (`active_terminal`), the viewport, the fullscreen flag and
`max_panes`.  `display_area`, render bookkeeping, senders and collaborators
are outside the model. -/
structure Tab where
  panes : List (PaneId × Pane)
  panesToHide : List PaneId
  activeTerminal : Option PaneId
  viewport : Viewport
  fullscreenIsActive : Bool
  maxPanes : Option Nat
deriving DecidableEq, Repr

/-- BTreeMap::get. -/
def Tab.getPane (t : Tab) (id : PaneId) : Option Pane :=
  (t.panes.find? (fun kp => decide (kp.1 = id))).map (fun kp => kp.2)

/-- In-place mutation of the pane stored under a key (the Rust code mutates
through `panes.get_mut(id)`). -/
def Tab.updatePane (t : Tab) (id : PaneId) (f : Pane → Pane) : Tab :=
  { t with panes := t.panes.map (fun kp => if kp.1 = id then (kp.1, f kp.2) else kp) }

/-- BTreeMap::remove (key order of the remaining entries is preserved). -/
def Tab.removePane (t : Tab) (id : PaneId) : Tab :=
  { t with panes := t.panes.filter (fun kp => decide (kp.1 ≠ id)) }

/-- BTreeMap::insert: a new key enters in key order, an existing key has its
value replaced. -/
def insertPane (l : List (PaneId × Pane)) (k : PaneId) (v : Pane) : List (PaneId × Pane) :=
  match l with
  | [] => [(k, v)]
  | kp :: rest =>
    if k = kp.1 then (k, v) :: rest
    else if PaneId.le k kp.1 then (k, v) :: kp :: rest
    else kp :: insertPane rest k v

/-- get_panes (tab.rs line 862): iterate the whole map. -/
def Tab.getPanes (t : Tab) : List (PaneId × Pane) := t.panes

/-- get_selectable_panes (tab.rs line 866). -/
def Tab.getSelectablePanes (t : Tab) : List (PaneId × Pane) :=
  t.panes.filter (fun kp => kp.2.selectable)

/-- get_pane_ids (tab.rs line 2171). -/
def Tab.getPaneIds (t : Tab) : List PaneId := t.getPanes.map (fun kp => kp.1)

/-- has_panes (tab.rs line 879). -/
def Tab.hasPanes (t : Tab) : Bool := !t.getPanes.isEmpty

/-- has_selectable_panes (tab.rs line 883). -/
def Tab.hasSelectablePanes (t : Tab) : Bool := !t.getSelectablePanes.isEmpty

/-- get_active_pane_id (tab.rs line 608). -/
def Tab.getActivePaneId (t : Tab) : Option PaneId := t.activeTerminal

/-- get_active_pane (tab.rs line 601). -/
def Tab.getActivePane (t : Tab) : Option Pane :=
  match t.getActivePaneId with
  | some activePane => t.getPane activePane
  | none => none

/-- next_active_pane (tab.rs lines 887-893): walk the given ids in reverse,
first selectable wins.  The source unwraps the map lookup; ids absent from the
map (unreachable for the callers) fail the test here. -/
def Tab.nextActivePane (t : Tab) (panes : List PaneId) : Option PaneId :=
  panes.reverse.find? (fun pid => ((t.getPane pid).map (fun p => p.selectable)).getD false)

/-- pane_ids_directly_left_of (tab.rs lines 894-910): None when the target
pane is missing (the source unwraps - unreachable for the callers), when the
target touches x = 0, or when no pane's right edge abuts the target's left
edge; otherwise the abutting pane ids in map order. -/
def Tab.paneIdsDirectlyLeftOf (t : Tab) (id : PaneId) : Option (List PaneId) :=
  match t.getPane id with
  | none => none
  | some terminalToCheck =>
    if terminalToCheck.x = 0 then none
    else
      let ids := (t.getPanes.filter
        (fun kp => decide (kp.2.x + kp.2.cols = terminalToCheck.x))).map (fun kp => kp.1)
      if ids.isEmpty then none else some ids

/-- pane_ids_directly_right_of (tab.rs lines 911-924): note - no viewport-edge
check, unlike the left variant. -/
def Tab.paneIdsDirectlyRightOf (t : Tab) (id : PaneId) : Option (List PaneId) :=
  match t.getPane id with
  | none => none
  | some terminalToCheck =>
    let ids := (t.getPanes.filter
      (fun kp => decide (kp.2.x = terminalToCheck.x + terminalToCheck.cols))).map (fun kp => kp.1)
    if ids.isEmpty then none else some ids

/-- pane_ids_directly_below (tab.rs lines 925-938): no viewport-edge check. -/
def Tab.paneIdsDirectlyBelow (t : Tab) (id : PaneId) : Option (List PaneId) :=
  match t.getPane id with
  | none => none
  | some terminalToCheck =>
    let ids := (t.getPanes.filter
      (fun kp => decide (kp.2.y = terminalToCheck.y + terminalToCheck.rows))).map (fun kp => kp.1)
    if ids.isEmpty then none else some ids

/-- pane_ids_directly_above (tab.rs lines 939-952): no viewport-edge check. -/
def Tab.paneIdsDirectlyAbove (t : Tab) (id : PaneId) : Option (List PaneId) :=
  match t.getPane id with
  | none => none
  | some terminalToCheck =>
    let ids := (t.getPanes.filter
      (fun kp => decide (kp.2.y + kp.2.rows = terminalToCheck.y))).map (fun kp => kp.1)
    if ids.isEmpty then none else some ids

/-- panes_top_aligned_with_pane (tab.rs lines 953-959). -/
def Tab.panesTopAlignedWithPane (t : Tab) (pane : Pane) : List Pane :=
  (t.panes.map (fun kp => kp.2)).filter
    (fun terminal => decide (terminal.pid ≠ pane.pid) && decide (terminal.y = pane.y))

/-- panes_bottom_aligned_with_pane (tab.rs lines 960-969). -/
def Tab.panesBottomAlignedWithPane (t : Tab) (pane : Pane) : List Pane :=
  (t.panes.map (fun kp => kp.2)).filter
    (fun terminal => decide (terminal.pid ≠ pane.pid)
      && decide (terminal.y + terminal.rows = pane.y + pane.rows))

/-- panes_right_aligned_with_pane (tab.rs lines 970-979). -/
def Tab.panesRightAlignedWithPane (t : Tab) (pane : Pane) : List Pane :=
  (t.panes.map (fun kp => kp.2)).filter
    (fun terminal => decide (terminal.pid ≠ pane.pid)
      && decide (terminal.x + terminal.cols = pane.x + pane.cols))

/-- panes_left_aligned_with_pane (tab.rs lines 980-986). -/
def Tab.panesLeftAlignedWithPane (t : Tab) (pane : Pane) : List Pane :=
  (t.panes.map (fun kp => kp.2)).filter
    (fun terminal => decide (terminal.pid ≠ pane.pid) && decide (terminal.x = pane.x))

/-- Stable insertion used to model Rust's stable `sort_by` / `sort_by_key`:
the incoming element goes in front of the first existing element it is
less-or-equal to, so elements that compare equal keep their original order.
For the total preorders used here a stable sort's output is unique, so this
models the source's sort exactly. -/
def insertBy (le : α → α → Bool) (x : α) : List α → List α
  | [] => [x]
  | y :: ys => if le x y then x :: y :: ys else y :: insertBy le x ys

/-- Stable sort modelling Rust `sort_by` / `sort_by_key`. -/
def sortBy (le : α → α → Bool) : List α → List α
  | [] => []
  | x :: xs => insertBy le x (sortBy le xs)

/-- The contiguous-chain loop shared by the eight band functions (e.g. tab.rs
lines 1001-1006): walk the aligned panes in sorted order, appending a pane
whenever it abuts the last collected pane (or the target pane when none has
been collected yet). -/
def contiguousChain (target : Pane) (adj : Pane → Pane → Bool)
    (sorted : List Pane) : List Pane :=
  sorted.foldl
    (fun acc terminal =>
      if adj terminal (acc.getLast?.getD target) then acc ++ [terminal] else acc)
    []

/-- right_aligned_contiguous_panes_above (tab.rs lines 987-1029): collect the
right-aligned panes stacked directly above the target (sorted by descending
y), find the highest stop border among the given borders that one of them
bottoms out on, keep only the chain members at or below it, and report the
border (the target's own top edge when the chain is empty) with the ids. -/
def Tab.rightAlignedContiguousPanesAbove (t : Tab) (id : PaneId)
    (terminalBordersToTheRight : List Nat) : Nat × List PaneId :=
  match t.getPane id with
  | none => (0, [])
  | some terminalToCheck =>
    let rightAlignedTerminals :=
      sortBy (fun a b => decide (b.y ≤ a.y)) (t.panesRightAlignedWithPane terminalToCheck)
    let terminals := contiguousChain terminalToCheck
      (fun terminal lastOne => decide (terminal.y + terminal.rows = lastOne.y))
      rightAlignedTerminals
    let topResizeBorder := terminals.foldl
      (fun border terminal =>
        let bottomTerminalBoundary := terminal.y + terminal.rows
        if terminalBordersToTheRight.contains bottomTerminalBoundary
            && decide (border < bottomTerminalBoundary)
        then bottomTerminalBoundary else border)
      0
    let terminals := terminals.filter (fun terminal => decide (terminal.y ≥ topResizeBorder))
    let topResizeBorder := if terminals.isEmpty then terminalToCheck.y else topResizeBorder
    (topResizeBorder, terminals.map (fun terminal => terminal.pid))

/-- right_aligned_contiguous_panes_below (tab.rs lines 1030-1072). -/
def Tab.rightAlignedContiguousPanesBelow (t : Tab) (id : PaneId)
    (terminalBordersToTheRight : List Nat) : Nat × List PaneId :=
  match t.getPane id with
  | none => (0, [])
  | some terminalToCheck =>
    let rightAlignedTerminals :=
      sortBy (fun a b => decide (a.y ≤ b.y)) (t.panesRightAlignedWithPane terminalToCheck)
    let terminals := contiguousChain terminalToCheck
      (fun terminal lastOne => decide (terminal.y = lastOne.y + lastOne.rows))
      rightAlignedTerminals
    let bottomResizeBorder := terminals.foldl
      (fun border terminal =>
        let topTerminalBoundary := terminal.y
        if terminalBordersToTheRight.contains topTerminalBoundary
            && decide (topTerminalBoundary < border)
        then topTerminalBoundary else border)
      (t.viewport.y + t.viewport.rows)
    let terminals := terminals.filter
      (fun terminal => decide (terminal.y + terminal.rows ≤ bottomResizeBorder))
    let bottomResizeBorder :=
      if terminals.isEmpty then terminalToCheck.y + terminalToCheck.rows
      else bottomResizeBorder
    (bottomResizeBorder, terminals.map (fun terminal => terminal.pid))

/-- left_aligned_contiguous_panes_above (tab.rs lines 1073-1115). -/
def Tab.leftAlignedContiguousPanesAbove (t : Tab) (id : PaneId)
    (terminalBordersToTheLeft : List Nat) : Nat × List PaneId :=
  match t.getPane id with
  | none => (0, [])
  | some terminalToCheck =>
    let leftAlignedTerminals :=
      sortBy (fun a b => decide (b.y ≤ a.y)) (t.panesLeftAlignedWithPane terminalToCheck)
    let terminals := contiguousChain terminalToCheck
      (fun terminal lastOne => decide (terminal.y + terminal.rows = lastOne.y))
      leftAlignedTerminals
    let topResizeBorder := terminals.foldl
      (fun border terminal =>
        let bottomTerminalBoundary := terminal.y + terminal.rows
        if terminalBordersToTheLeft.contains bottomTerminalBoundary
            && decide (border < bottomTerminalBoundary)
        then bottomTerminalBoundary else border)
      0
    let terminals := terminals.filter (fun terminal => decide (terminal.y ≥ topResizeBorder))
    let topResizeBorder := if terminals.isEmpty then terminalToCheck.y else topResizeBorder
    (topResizeBorder, terminals.map (fun terminal => terminal.pid))

/-- left_aligned_contiguous_panes_below (tab.rs lines 1116-1161). -/
def Tab.leftAlignedContiguousPanesBelow (t : Tab) (id : PaneId)
    (terminalBordersToTheLeft : List Nat) : Nat × List PaneId :=
  match t.getPane id with
  | none => (0, [])
  | some terminalToCheck =>
    let leftAlignedTerminals :=
      sortBy (fun a b => decide (a.y ≤ b.y)) (t.panesLeftAlignedWithPane terminalToCheck)
    let terminals := contiguousChain terminalToCheck
      (fun terminal lastOne => decide (terminal.y = lastOne.y + lastOne.rows))
      leftAlignedTerminals
    let bottomResizeBorder := terminals.foldl
      (fun border terminal =>
        let topTerminalBoundary := terminal.y
        if terminalBordersToTheLeft.contains topTerminalBoundary
            && decide (topTerminalBoundary < border)
        then topTerminalBoundary else border)
      (t.viewport.y + t.viewport.rows)
    let terminals := terminals.filter
      (fun terminal => decide (terminal.y + terminal.rows ≤ bottomResizeBorder))
    let bottomResizeBorder :=
      if terminals.isEmpty then terminalToCheck.y + terminalToCheck.rows
      else bottomResizeBorder
    (bottomResizeBorder, terminals.map (fun terminal => terminal.pid))

/-- top_aligned_contiguous_panes_to_the_left (tab.rs lines 1162-1204). -/
def Tab.topAlignedContiguousPanesToTheLeft (t : Tab) (id : PaneId)
    (terminalBordersAbove : List Nat) : Nat × List PaneId :=
  match t.getPane id with
  | none => (0, [])
  | some terminalToCheck =>
    let topAlignedTerminals :=
      sortBy (fun a b => decide (b.x ≤ a.x)) (t.panesTopAlignedWithPane terminalToCheck)
    let terminals := contiguousChain terminalToCheck
      (fun terminal lastOne => decide (terminal.x + terminal.cols = lastOne.x))
      topAlignedTerminals
    let leftResizeBorder := terminals.foldl
      (fun border terminal =>
        let rightTerminalBoundary := terminal.x + terminal.cols
        if terminalBordersAbove.contains rightTerminalBoundary
            && decide (border < rightTerminalBoundary)
        then rightTerminalBoundary else border)
      0
    let terminals := terminals.filter (fun terminal => decide (terminal.x ≥ leftResizeBorder))
    let leftResizeBorder := if terminals.isEmpty then terminalToCheck.x else leftResizeBorder
    (leftResizeBorder, terminals.map (fun terminal => terminal.pid))

/-- top_aligned_contiguous_panes_to_the_right (tab.rs lines 1205-1243). -/
def Tab.topAlignedContiguousPanesToTheRight (t : Tab) (id : PaneId)
    (terminalBordersAbove : List Nat) : Nat × List PaneId :=
  match t.getPane id with
  | none => (0, [])
  | some terminalToCheck =>
    let topAlignedTerminals :=
      sortBy (fun a b => decide (a.x ≤ b.x)) (t.panesTopAlignedWithPane terminalToCheck)
    let terminals := contiguousChain terminalToCheck
      (fun terminal lastOne => decide (terminal.x = lastOne.x + lastOne.cols))
      topAlignedTerminals
    let rightResizeBorder := terminals.foldl
      (fun border terminal =>
        let leftTerminalBoundary := terminal.x
        if terminalBordersAbove.contains leftTerminalBoundary
            && decide (leftTerminalBoundary < border)
        then leftTerminalBoundary else border)
      (t.viewport.x + t.viewport.cols)
    let terminals := terminals.filter
      (fun terminal => decide (terminal.x + terminal.cols ≤ rightResizeBorder))
    let rightResizeBorder :=
      if terminals.isEmpty then terminalToCheck.x + terminalToCheck.cols
      else rightResizeBorder
    (rightResizeBorder, terminals.map (fun terminal => terminal.pid))

/-- bottom_aligned_contiguous_panes_to_the_left (tab.rs lines 1244-1282). -/
def Tab.bottomAlignedContiguousPanesToTheLeft (t : Tab) (id : PaneId)
    (terminalBordersBelow : List Nat) : Nat × List PaneId :=
  match t.getPane id with
  | none => (0, [])
  | some terminalToCheck =>
    let bottomAlignedTerminals :=
      sortBy (fun a b => decide (b.x ≤ a.x)) (t.panesBottomAlignedWithPane terminalToCheck)
    let terminals := contiguousChain terminalToCheck
      (fun terminal lastOne => decide (terminal.x + terminal.cols = lastOne.x))
      bottomAlignedTerminals
    let leftResizeBorder := terminals.foldl
      (fun border terminal =>
        let rightTerminalBoundary := terminal.x + terminal.cols
        if terminalBordersBelow.contains rightTerminalBoundary
            && decide (border < rightTerminalBoundary)
        then rightTerminalBoundary else border)
      0
    let terminals := terminals.filter (fun terminal => decide (terminal.x ≥ leftResizeBorder))
    let leftResizeBorder := if terminals.isEmpty then terminalToCheck.x else leftResizeBorder
    (leftResizeBorder, terminals.map (fun terminal => terminal.pid))

/-- bottom_aligned_contiguous_panes_to_the_right (tab.rs lines 1283-1319). -/
def Tab.bottomAlignedContiguousPanesToTheRight (t : Tab) (id : PaneId)
    (terminalBordersBelow : List Nat) : Nat × List PaneId :=
  match t.getPane id with
  | none => (0, [])
  | some terminalToCheck =>
    let bottomAlignedTerminals :=
      sortBy (fun a b => decide (a.x ≤ b.x)) (t.panesBottomAlignedWithPane terminalToCheck)
    let terminals := contiguousChain terminalToCheck
      (fun terminal lastOne => decide (terminal.x = lastOne.x + lastOne.cols))
      bottomAlignedTerminals
    let rightResizeBorder := terminals.foldl
      (fun border terminal =>
        let leftTerminalBoundary := terminal.x
        if terminalBordersBelow.contains leftTerminalBoundary
            && decide (leftTerminalBoundary < border)
        then leftTerminalBoundary else border)
      (t.viewport.x + t.viewport.cols)
    let terminals := terminals.filter
      (fun terminal => decide (terminal.x + terminal.cols ≤ rightResizeBorder))
    let rightResizeBorder :=
      if terminals.isEmpty then terminalToCheck.x + terminalToCheck.cols
      else rightResizeBorder
    (rightResizeBorder, terminals.map (fun terminal => terminal.pid))

/-- pane_is_between_vertical_borders (tab.rs lines 1352-1363); the source
panics on a missing id (unreachable for the callers), modelled as false. -/
def Tab.paneIsBetweenVerticalBorders (t : Tab) (id : PaneId)
    (leftBorderX rightBorderX : Nat) : Bool :=
  match t.getPane id with
  | none => false
  | some terminal =>
    decide (terminal.x ≥ leftBorderX) && decide (terminal.x + terminal.cols ≤ rightBorderX)

/-- pane_is_between_horizontal_borders (tab.rs lines 1364-1375). -/
def Tab.paneIsBetweenHorizontalBorders (t : Tab) (id : PaneId)
    (topBorderY bottomBorderY : Nat) : Bool :=
  match t.getPane id with
  | none => false
  | some terminal =>
    decide (terminal.y ≥ topBorderY) && decide (terminal.y + terminal.rows ≤ bottomBorderY)

/-- reduce_pane_height_down (tab.rs line 1320). -/
def Tab.reducePaneHeightDown (t : Tab) (id : PaneId) (count : ℚ) : Tab :=
  t.updatePane id (fun p => p.reduceHeightDown count)

/-- reduce_pane_height_up (tab.rs line 1324). -/
def Tab.reducePaneHeightUp (t : Tab) (id : PaneId) (count : ℚ) : Tab :=
  t.updatePane id (fun p => p.reduceHeightUp count)

/-- increase_pane_height_down (tab.rs line 1328). -/
def Tab.increasePaneHeightDown (t : Tab) (id : PaneId) (count : ℚ) : Tab :=
  t.updatePane id (fun p => p.increaseHeightDown count)

/-- increase_pane_height_up (tab.rs line 1332). -/
def Tab.increasePaneHeightUp (t : Tab) (id : PaneId) (count : ℚ) : Tab :=
  t.updatePane id (fun p => p.increaseHeightUp count)

/-- increase_pane_width_right (tab.rs line 1336). -/
def Tab.increasePaneWidthRight (t : Tab) (id : PaneId) (count : ℚ) : Tab :=
  t.updatePane id (fun p => p.increaseWidthRight count)

/-- increase_pane_width_left (tab.rs line 1340). -/
def Tab.increasePaneWidthLeft (t : Tab) (id : PaneId) (count : ℚ) : Tab :=
  t.updatePane id (fun p => p.increaseWidthLeft count)

/-- reduce_pane_width_right (tab.rs line 1344). -/
def Tab.reducePaneWidthRight (t : Tab) (id : PaneId) (count : ℚ) : Tab :=
  t.updatePane id (fun p => p.reduceWidthRight count)

/-- reduce_pane_width_left (tab.rs line 1348). -/
def Tab.reducePaneWidthLeft (t : Tab) (id : PaneId) (count : ℚ) : Tab :=
  t.updatePane id (fun p => p.reduceWidthLeft count)

/-- The side-band minimum check of the shrink cascades (e.g. tab.rs lines
1396-1400): `(pane.rows() as isize) - (count as isize) < pane.min_height()`.
A missing id (the source unwraps; ids come from the pane map) fails the
test. -/
def Tab.sideBandRowsBelowMin (t : Tab) (count : ℚ) (id : PaneId) : Bool :=
  match t.getPane id with
  | some pane => decide ((pane.rows : Int) - ratTruncToInt count < (pane.minHeight : Int))
  | none => false

/-- The cols variant of the side-band minimum check (e.g. tab.rs lines
1468-1473). -/
def Tab.sideBandColsBelowMin (t : Tab) (count : ℚ) (id : PaneId) : Bool :=
  match t.getPane id with
  | some pane => decide ((pane.cols : Int) - ratTruncToInt count < (pane.minWidth : Int))
  | none => false

/-- reduce_pane_and_surroundings_up (tab.rs lines 1376-1413).  `none` models
the `expect` panic when there is no pane directly below; `some t` unchanged
models the early `return` when a side-band pane would drop below its minimum
height; otherwise the target shrinks upward, the panes below grow upward and
the side bands shrink upward. -/
def Tab.reducePaneAndSurroundingsUp (t : Tab) (id : PaneId) (count : ℚ) : Option Tab :=
  match t.paneIdsDirectlyBelow id with
  | none => none
  | some terminalsBelow =>
    let terminalBordersBelow :=
      terminalsBelow.map (fun tid => ((t.getPane tid).map (fun p => p.x)).getD 0)
    let borderAndLeft := t.bottomAlignedContiguousPanesToTheLeft id terminalBordersBelow
    let borderAndRight := t.bottomAlignedContiguousPanesToTheRight id terminalBordersBelow
    let terminalsBelow := terminalsBelow.filter
      (fun tid => t.paneIsBetweenVerticalBorders tid borderAndLeft.1 borderAndRight.1)
    if (borderAndLeft.2 ++ borderAndRight.2).any (t.sideBandRowsBelowMin count) then
      some t
    else
      let t1 := t.reducePaneHeightUp id count
      let t2 := terminalsBelow.foldl (fun acc tid => acc.increasePaneHeightUp tid count) t1
      let t3 := (borderAndLeft.2 ++ borderAndRight.2).foldl
        (fun acc tid => acc.reducePaneHeightUp tid count) t2
      some t3

/-- reduce_pane_and_surroundings_down (tab.rs lines 1414-1451). -/
def Tab.reducePaneAndSurroundingsDown (t : Tab) (id : PaneId) (count : ℚ) : Option Tab :=
  match t.paneIdsDirectlyAbove id with
  | none => none
  | some terminalsAbove =>
    let terminalBordersAbove :=
      terminalsAbove.map (fun tid => ((t.getPane tid).map (fun p => p.x)).getD 0)
    let borderAndLeft := t.topAlignedContiguousPanesToTheLeft id terminalBordersAbove
    let borderAndRight := t.topAlignedContiguousPanesToTheRight id terminalBordersAbove
    let terminalsAbove := terminalsAbove.filter
      (fun tid => t.paneIsBetweenVerticalBorders tid borderAndLeft.1 borderAndRight.1)
    if (borderAndLeft.2 ++ borderAndRight.2).any (t.sideBandRowsBelowMin count) then
      some t
    else
      let t1 := t.reducePaneHeightDown id count
      let t2 := terminalsAbove.foldl (fun acc tid => acc.increasePaneHeightDown tid count) t1
      let t3 := (borderAndLeft.2 ++ borderAndRight.2).foldl
        (fun acc tid => acc.reducePaneHeightDown tid count) t2
      some t3

/-- reduce_pane_and_surroundings_right (tab.rs lines 1452-1483). -/
def Tab.reducePaneAndSurroundingsRight (t : Tab) (id : PaneId) (count : ℚ) : Option Tab :=
  match t.paneIdsDirectlyLeftOf id with
  | none => none
  | some terminalsToTheLeft =>
    let terminalBordersToTheLeft :=
      terminalsToTheLeft.map (fun tid => ((t.getPane tid).map (fun p => p.y)).getD 0)
    let borderAndAbove := t.leftAlignedContiguousPanesAbove id terminalBordersToTheLeft
    let borderAndBelow := t.leftAlignedContiguousPanesBelow id terminalBordersToTheLeft
    let terminalsToTheLeft := terminalsToTheLeft.filter
      (fun tid => t.paneIsBetweenHorizontalBorders tid borderAndAbove.1 borderAndBelow.1)
    if (borderAndAbove.2 ++ borderAndBelow.2).any (t.sideBandColsBelowMin count) then
      some t
    else
      let t1 := t.reducePaneWidthRight id count
      let t2 := terminalsToTheLeft.foldl (fun acc tid => acc.increasePaneWidthRight tid count) t1
      let t3 := (borderAndAbove.2 ++ borderAndBelow.2).foldl
        (fun acc tid => acc.reducePaneWidthRight tid count) t2
      some t3

/-- reduce_pane_and_surroundings_left (tab.rs lines 1484-1515). -/
def Tab.reducePaneAndSurroundingsLeft (t : Tab) (id : PaneId) (count : ℚ) : Option Tab :=
  match t.paneIdsDirectlyRightOf id with
  | none => none
  | some terminalsToTheRight =>
    let terminalBordersToTheRight :=
      terminalsToTheRight.map (fun tid => ((t.getPane tid).map (fun p => p.y)).getD 0)
    let borderAndAbove := t.rightAlignedContiguousPanesAbove id terminalBordersToTheRight
    let borderAndBelow := t.rightAlignedContiguousPanesBelow id terminalBordersToTheRight
    let terminalsToTheRight := terminalsToTheRight.filter
      (fun tid => t.paneIsBetweenHorizontalBorders tid borderAndAbove.1 borderAndBelow.1)
    if (borderAndAbove.2 ++ borderAndBelow.2).any (t.sideBandColsBelowMin count) then
      some t
    else
      let t1 := t.reducePaneWidthLeft id count
      let t2 := terminalsToTheRight.foldl (fun acc tid => acc.increasePaneWidthLeft tid count) t1
      let t3 := (borderAndAbove.2 ++ borderAndBelow.2).foldl
        (fun acc tid => acc.reducePaneWidthLeft tid count) t2
      some t3

/-- increase_pane_and_surroundings_up (tab.rs lines 1516-1541); the grow
cascades have no minimum check. -/
def Tab.increasePaneAndSurroundingsUp (t : Tab) (id : PaneId) (count : ℚ) : Option Tab :=
  match t.paneIdsDirectlyAbove id with
  | none => none
  | some terminalsAbove =>
    let terminalBordersAbove :=
      terminalsAbove.map (fun tid => ((t.getPane tid).map (fun p => p.x)).getD 0)
    let borderAndLeft := t.topAlignedContiguousPanesToTheLeft id terminalBordersAbove
    let borderAndRight := t.topAlignedContiguousPanesToTheRight id terminalBordersAbove
    let terminalsAbove := terminalsAbove.filter
      (fun tid => t.paneIsBetweenVerticalBorders tid borderAndLeft.1 borderAndRight.1)
    let t1 := t.increasePaneHeightUp id count
    let t2 := terminalsAbove.foldl (fun acc tid => acc.reducePaneHeightUp tid count) t1
    let t3 := (borderAndLeft.2 ++ borderAndRight.2).foldl
      (fun acc tid => acc.increasePaneHeightUp tid count) t2
    some t3

/-- increase_pane_and_surroundings_down (tab.rs lines 1542-1567). -/
def Tab.increasePaneAndSurroundingsDown (t : Tab) (id : PaneId) (count : ℚ) : Option Tab :=
  match t.paneIdsDirectlyBelow id with
  | none => none
  | some terminalsBelow =>
    let terminalBordersBelow :=
      terminalsBelow.map (fun tid => ((t.getPane tid).map (fun p => p.x)).getD 0)
    let borderAndLeft := t.bottomAlignedContiguousPanesToTheLeft id terminalBordersBelow
    let borderAndRight := t.bottomAlignedContiguousPanesToTheRight id terminalBordersBelow
    let terminalsBelow := terminalsBelow.filter
      (fun tid => t.paneIsBetweenVerticalBorders tid borderAndLeft.1 borderAndRight.1)
    let t1 := t.increasePaneHeightDown id count
    let t2 := terminalsBelow.foldl (fun acc tid => acc.reducePaneHeightDown tid count) t1
    let t3 := (borderAndLeft.2 ++ borderAndRight.2).foldl
      (fun acc tid => acc.increasePaneHeightDown tid count) t2
    some t3

/-- increase_pane_and_surroundings_right (tab.rs lines 1568-1592). -/
def Tab.increasePaneAndSurroundingsRight (t : Tab) (id : PaneId) (count : ℚ) : Option Tab :=
  match t.paneIdsDirectlyRightOf id with
  | none => none
  | some terminalsToTheRight =>
    let terminalBordersToTheRight :=
      terminalsToTheRight.map (fun tid => ((t.getPane tid).map (fun p => p.y)).getD 0)
    let borderAndAbove := t.rightAlignedContiguousPanesAbove id terminalBordersToTheRight
    let borderAndBelow := t.rightAlignedContiguousPanesBelow id terminalBordersToTheRight
    let terminalsToTheRight := terminalsToTheRight.filter
      (fun tid => t.paneIsBetweenHorizontalBorders tid borderAndAbove.1 borderAndBelow.1)
    let t1 := t.increasePaneWidthRight id count
    let t2 := terminalsToTheRight.foldl (fun acc tid => acc.reducePaneWidthRight tid count) t1
    let t3 := (borderAndAbove.2 ++ borderAndBelow.2).foldl
      (fun acc tid => acc.increasePaneWidthRight tid count) t2
    some t3

/-- increase_pane_and_surroundings_left (tab.rs lines 1593-1615). -/
def Tab.increasePaneAndSurroundingsLeft (t : Tab) (id : PaneId) (count : ℚ) : Option Tab :=
  match t.paneIdsDirectlyLeftOf id with
  | none => none
  | some terminalsToTheLeft =>
    let terminalBordersToTheLeft :=
      terminalsToTheLeft.map (fun tid => ((t.getPane tid).map (fun p => p.y)).getD 0)
    let borderAndAbove := t.leftAlignedContiguousPanesAbove id terminalBordersToTheLeft
    let borderAndBelow := t.leftAlignedContiguousPanesBelow id terminalBordersToTheLeft
    let terminalsToTheLeft := terminalsToTheLeft.filter
      (fun tid => t.paneIsBetweenHorizontalBorders tid borderAndAbove.1 borderAndBelow.1)
    let t1 := t.increasePaneWidthLeft id count
    let t2 := terminalsToTheLeft.foldl (fun acc tid => acc.reducePaneWidthLeft tid count) t1
    let t3 := (borderAndAbove.2 ++ borderAndBelow.2).foldl
      (fun acc tid => acc.increasePaneWidthLeft tid count) t2
    some t3

/-- can_increase_pane_and_surroundings_right (tab.rs lines 1618-1631): true
exactly when some pane is directly to the right and every such pane has a
Percent cols value with `cols - increase_by ≥ RESIZE_PERCENT`. -/
def Tab.canIncreasePaneAndSurroundingsRight (t : Tab) (paneId : PaneId)
    (increaseBy : ℚ) : Bool :=
  match t.paneIdsDirectlyRightOf paneId with
  | some panesToTheRight =>
    panesToTheRight.all (fun id =>
      match (t.getPane id).bind (fun p => p.positionAndSize.cols.asPercent) with
      | some cols => decide (cols - increaseBy ≥ resizePercent)
      | none => false)
  | none => false

/-- can_increase_pane_and_surroundings_left (tab.rs lines 1632-1645). -/
def Tab.canIncreasePaneAndSurroundingsLeft (t : Tab) (paneId : PaneId)
    (increaseBy : ℚ) : Bool :=
  match t.paneIdsDirectlyLeftOf paneId with
  | some panesToTheLeft =>
    panesToTheLeft.all (fun id =>
      match (t.getPane id).bind (fun p => p.positionAndSize.cols.asPercent) with
      | some cols => decide (cols - increaseBy ≥ resizePercent)
      | none => false)
  | none => false

/-- can_increase_pane_and_surroundings_down (tab.rs lines 1646-1659). -/
def Tab.canIncreasePaneAndSurroundingsDown (t : Tab) (paneId : PaneId)
    (increaseBy : ℚ) : Bool :=
  match t.paneIdsDirectlyBelow paneId with
  | some panesBelow =>
    panesBelow.all (fun id =>
      match (t.getPane id).bind (fun p => p.positionAndSize.rows.asPercent) with
      | some rows => decide (rows - increaseBy ≥ resizePercent)
      | none => false)
  | none => false

/-- can_increase_pane_and_surroundings_up (tab.rs lines 1660-1673). -/
def Tab.canIncreasePaneAndSurroundingsUp (t : Tab) (paneId : PaneId)
    (increaseBy : ℚ) : Bool :=
  match t.paneIdsDirectlyAbove paneId with
  | some panesAbove =>
    panesAbove.all (fun id =>
      match (t.getPane id).bind (fun p => p.positionAndSize.rows.asPercent) with
      | some rows => decide (rows - increaseBy ≥ resizePercent)
      | none => false)
  | none => false

/-- can_reduce_pane_and_surroundings_right (tab.rs lines 1674-1681): the
active pane's cols is Percent with `cols - reduce_by ≥ RESIZE_PERCENT` and
some pane is directly to the left (somewhere to give the space back). -/
def Tab.canReducePaneAndSurroundingsRight (t : Tab) (paneId : PaneId)
    (reduceBy : ℚ) : Bool :=
  match (t.getPane paneId).bind (fun p => p.positionAndSize.cols.asPercent) with
  | some cols =>
    decide (cols - reduceBy ≥ resizePercent) && (t.paneIdsDirectlyLeftOf paneId).isSome
  | none => false

/-- can_reduce_pane_and_surroundings_left (tab.rs lines 1682-1689). -/
def Tab.canReducePaneAndSurroundingsLeft (t : Tab) (paneId : PaneId)
    (reduceBy : ℚ) : Bool :=
  match (t.getPane paneId).bind (fun p => p.positionAndSize.cols.asPercent) with
  | some cols =>
    decide (cols - reduceBy ≥ resizePercent) && (t.paneIdsDirectlyRightOf paneId).isSome
  | none => false

/-- can_reduce_pane_and_surroundings_down (tab.rs lines 1690-1697). -/
def Tab.canReducePaneAndSurroundingsDown (t : Tab) (paneId : PaneId)
    (reduceBy : ℚ) : Bool :=
  match (t.getPane paneId).bind (fun p => p.positionAndSize.rows.asPercent) with
  | some rows =>
    decide (rows - reduceBy ≥ resizePercent) && (t.paneIdsDirectlyAbove paneId).isSome
  | none => false

/-- can_reduce_pane_and_surroundings_up (tab.rs lines 1698-1705). -/
def Tab.canReducePaneAndSurroundingsUp (t : Tab) (paneId : PaneId)
    (reduceBy : ℚ) : Bool :=
  match (t.getPane paneId).bind (fun p => p.positionAndSize.rows.asPercent) with
  | some rows =>
    decide (rows - reduceBy ≥ resizePercent) && (t.paneIdsDirectlyBelow paneId).isSome
  | none => false

/-- set_force_render (tab.rs line 722) only flips per-pane render flags, which
are outside the modelled state: identity here. -/
def Tab.setForceRender (t : Tab) : Tab := t

/-- set_pane_frames (tab.rs line 746) sets frame flags, content offsets and OS
terminal sizes, all outside the modelled state: identity here. -/
def Tab.setPaneFrames (t : Tab) : Tab := t

/-- Modelled from the spec: resize_whole_tab (tab.rs line 1715) runs the
PaneResizer (zellij-server ui/pane_resizer.rs, not under src/).  Its contract
(§4.5.1) re-normalises Percent shares so that each cut sums to 100 and
refreshes the cached cell counts; when the shares already sum to 100 and the
display size is unchanged - the situation at every call site modelled here -
it redistributes nothing, realises the requested size, and the viewport
adjustment (tab.rs lines 1736, 1745) is by zero.  It is therefore modelled as
the identity on the constraint-level state; cached cell counts are taken as
given by the concrete states. -/
def Tab.resizeWholeTab (t : Tab) : Tab := t

/-- Modelled from the spec: relayout_tab (tab.rs line 1706) also just runs the
PaneResizer along one axis; identity for the same reason as resizeWholeTab. -/
def Tab.relayoutTab (t : Tab) : Tab := t

/-- render (tab.rs line 777) builds the ANSI output and refreshes timestamps
and boundary colours, all outside the modelled state: identity here. -/
def Tab.renderTab (t : Tab) : Tab := t

/-- resize_right (tab.rs lines 1780-1791): grow if permitted, else shrink if
permitted, else leave the panes alone; then re-normalise and render.  The
cascades' `expect` cannot fire when the matching `can_*` guard holds (the
guard checks the same neighbour query), so the `getD t` fallback is
unreachable. -/
def Tab.resizeRight (t : Tab) : Tab :=
  let t1 :=
    match t.getActivePaneId with
    | some activePaneId =>
      if t.canIncreasePaneAndSurroundingsRight activePaneId resizePercent then
        (t.increasePaneAndSurroundingsRight activePaneId resizePercent).getD t
      else if t.canReducePaneAndSurroundingsRight activePaneId resizePercent then
        (t.reducePaneAndSurroundingsRight activePaneId resizePercent).getD t
      else t
    | none => t
  t1.resizeWholeTab.renderTab

/-- resize_left (tab.rs lines 1767-1779). -/
def Tab.resizeLeft (t : Tab) : Tab :=
  let t1 :=
    match t.getActivePaneId with
    | some activePaneId =>
      if t.canIncreasePaneAndSurroundingsLeft activePaneId resizePercent then
        (t.increasePaneAndSurroundingsLeft activePaneId resizePercent).getD t
      else if t.canReducePaneAndSurroundingsLeft activePaneId resizePercent then
        (t.reducePaneAndSurroundingsLeft activePaneId resizePercent).getD t
      else t
    | none => t
  t1.resizeWholeTab.renderTab

/-- resize_down (tab.rs lines 1792-1803). -/
def Tab.resizeDown (t : Tab) : Tab :=
  let t1 :=
    match t.getActivePaneId with
    | some activePaneId =>
      if t.canIncreasePaneAndSurroundingsDown activePaneId resizePercent then
        (t.increasePaneAndSurroundingsDown activePaneId resizePercent).getD t
      else if t.canReducePaneAndSurroundingsDown activePaneId resizePercent then
        (t.reducePaneAndSurroundingsDown activePaneId resizePercent).getD t
      else t
    | none => t
  t1.resizeWholeTab.renderTab

/-- resize_up (tab.rs lines 1804-1815). -/
def Tab.resizeUp (t : Tab) : Tab :=
  let t1 :=
    match t.getActivePaneId with
    | some activePaneId =>
      if t.canIncreasePaneAndSurroundingsUp activePaneId resizePercent then
        (t.increasePaneAndSurroundingsUp activePaneId resizePercent).getD t
      else if t.canReducePaneAndSurroundingsUp activePaneId resizePercent then
        (t.reducePaneAndSurroundingsUp activePaneId resizePercent).getD t
      else t
    | none => t
  t1.resizeWholeTab.renderTab

/-- is_inside_viewport (tab.rs lines 2414-2419): compares only the vertical
extent of the pane's base geometry against the viewport; the x axis is never
examined.  The source unwraps the lookup (callers pass ids from the map);
a missing id is false here. -/
def Tab.isInsideViewport (t : Tab) (paneId : PaneId) : Bool :=
  match t.getPane paneId with
  | none => false
  | some pane =>
    let panePositionAndSize := pane.positionAndSize
    decide (panePositionAndSize.y ≥ t.viewport.y)
      && decide (panePositionAndSize.y + panePositionAndSize.rows.asUsize
                  ≤ t.viewport.y + t.viewport.rows)

/-- toggle_fullscreen_is_active (tab.rs line 719). -/
def Tab.toggleFullscreenIsActive (t : Tab) : Tab :=
  { t with fullscreenIsActive := !t.fullscreenIsActive }

/-- toggle_active_pane_fullscreen (tab.rs lines 678-718).  Exiting clears the
hide set and the active pane's override.  Entering overwrites `panes_to_hide`
with every pane other than the active one that `is_inside_viewport` accepts
(all panes, not only selectable ones); when that set is empty it returns at
once (with the hide set already overwritten), otherwise it installs on the
active pane an override made of the viewport's x and y and the default
geometry's Percent(100) dimensions.  Both transitions then force-render,
refresh frames, re-normalise and render (identity on the modelled state) and
flip the fullscreen flag. -/
def Tab.toggleActivePaneFullscreen (t : Tab) : Tab :=
  match t.getActivePaneId with
  | none => t
  | some activePaneId =>
    if t.fullscreenIsActive then
      let t1 := { t with panesToHide := [] }
      let t2 := t1.updatePane activePaneId (fun p => p.resetSizeAndPositionOverride)
      t2.setForceRender.setPaneFrames.resizeWholeTab.renderTab.toggleFullscreenIsActive
    else
      let paneIdsToHide := (t.getPanes.filter
        (fun kp => decide (kp.1 ≠ activePaneId) && t.isInsideViewport kp.1)).map
        (fun kp => kp.1)
      let t1 := { t with panesToHide := paneIdsToHide }
      if t1.panesToHide.isEmpty then
        t1
      else
        let fullScreenGeom : PaneGeom :=
          { PaneGeom.defaultGeom with x := t1.viewport.x, y := t1.viewport.y }
        let t2 := t1.updatePane activePaneId (fun p => p.overrideSizeAndPosition fullScreenGeom)
        t2.setForceRender.setPaneFrames.resizeWholeTab.renderTab.toggleFullscreenIsActive

/-- get_pane_id_at (tab.rs lines 2342-2350): when fullscreen is active the
active pane id is returned for every position, with no containment check;
otherwise the first selectable pane containing the position. -/
def Tab.getPaneIdAt (t : Tab) (point : Position) : Option PaneId :=
  if t.fullscreenIsActive then
    t.getActivePaneId
  else
    ((t.getSelectablePanes.find? (fun kp => kp.2.containsPoint point)).map (fun kp => kp.1))

/-- Rust `Iterator::position`: index of the first element satisfying the
predicate. -/
def listPosition (p : α → Bool) : List α → Option Nat
  | [] => none
  | x :: xs => if p x then some 0 else (listPosition p xs).map (fun i => i + 1)

/-- The row-major comparison used by focus_next_pane / focus_previous_pane
(tab.rs lines 1846-1852): y first, then x. -/
def rowMajorLe (a b : PaneId × Pane) : Bool :=
  if a.2.y = b.2.y then decide (a.2.x ≤ b.2.x) else decide (a.2.y ≤ b.2.y)

/-- focus_next_pane (tab.rs lines 1837-1864): sort the selectable panes in
row-major order, move the focus to the entry after the active one, wrapping to
the first.  The source unwraps the active id and its position in the sorted
list (the callers guarantee an active selectable pane); those panics are
modelled as leaving the tab unchanged. -/
def Tab.focusNextPane (t : Tab) : Tab :=
  if !t.hasSelectablePanes then t
  else if t.fullscreenIsActive then t
  else
    match t.getActivePaneId with
    | none => t
    | some activePaneId =>
      let panes := sortBy rowMajorLe t.getSelectablePanes
      match panes.head? with
      | none => t
      | some firstPane =>
        match listPosition (fun kp => decide (kp.1 = activePaneId)) panes with
        | none => t
        | some activePanePosition =>
          let nextActive :=
            match panes.get? (activePanePosition + 1) with
            | some nextPane => nextPane.1
            | none => firstPane.1
          ({ t with activeTerminal := some nextActive }).renderTab

/-- focus_previous_pane (tab.rs lines 1865-1892): as focus_next_pane but
moving backwards, wrapping from the first entry to the last. -/
def Tab.focusPreviousPane (t : Tab) : Tab :=
  if !t.hasSelectablePanes then t
  else if t.fullscreenIsActive then t
  else
    match t.getActivePaneId with
    | none => t
    | some activePaneId =>
      let panes := sortBy rowMajorLe t.getSelectablePanes
      match panes.getLast? with
      | none => t
      | some lastPane =>
        match listPosition (fun kp => decide (kp.1 = activePaneId)) panes with
        | none => t
        | some activePanePosition =>
          if activePanePosition = 0 then
            ({ t with activeTerminal := some lastPane.1 }).renderTab
          else
            match panes.get? (activePanePosition - 1) with
            | some prevPane => ({ t with activeTerminal := some prevPane.1 }).renderTab
            | none => t

/-- horizontal_borders (tab.rs lines 2051-2058); the HashSet is modelled as a
list queried only through `contains`. -/
def Tab.horizontalBorders (t : Tab) (terminals : List PaneId) : List Nat :=
  terminals.foldl
    (fun borders tid =>
      match t.getPane tid with
      | some terminal => borders ++ [terminal.y, terminal.y + terminal.rows + 1]
      | none => borders)
    []

/-- vertical_borders (tab.rs lines 2059-2066). -/
def Tab.verticalBorders (t : Tab) (terminals : List PaneId) : List Nat :=
  terminals.foldl
    (fun borders tid =>
      match t.getPane tid with
      | some terminal => borders ++ [terminal.x, terminal.x + terminal.cols + 1]
      | none => borders)
    []

/-- panes_to_the_left_between_aligning_borders (tab.rs lines 2067-2089). -/
def Tab.panesToTheLeftBetweenAligningBorders (t : Tab) (id : PaneId) :
    Option (List PaneId) :=
  match t.getPane id with
  | none => none
  | some terminal =>
    let upperCloseBorder := terminal.y
    let lowerCloseBorder := terminal.y + terminal.rows + 1
    match t.paneIdsDirectlyLeftOf id with
    | none => none
    | some terminalsToTheLeft =>
      let terminalBordersToTheLeft := t.horizontalBorders terminalsToTheLeft
      if terminalBordersToTheLeft.contains upperCloseBorder
          && terminalBordersToTheLeft.contains lowerCloseBorder then
        some (terminalsToTheLeft.filter
          (fun tid => t.paneIsBetweenHorizontalBorders tid upperCloseBorder lowerCloseBorder))
      else none

/-- panes_to_the_right_between_aligning_borders (tab.rs lines 2090-2113). -/
def Tab.panesToTheRightBetweenAligningBorders (t : Tab) (id : PaneId) :
    Option (List PaneId) :=
  match t.getPane id with
  | none => none
  | some terminal =>
    let upperCloseBorder := terminal.y
    let lowerCloseBorder := terminal.y + terminal.rows + 1
    match t.paneIdsDirectlyRightOf id with
    | none => none
    | some terminalsToTheRight =>
      let terminalBordersToTheRight := t.horizontalBorders terminalsToTheRight
      if terminalBordersToTheRight.contains upperCloseBorder
          && terminalBordersToTheRight.contains lowerCloseBorder then
        some (terminalsToTheRight.filter
          (fun tid => t.paneIsBetweenHorizontalBorders tid upperCloseBorder lowerCloseBorder))
      else none

/-- panes_above_between_aligning_borders (tab.rs lines 2114-2136). -/
def Tab.panesAboveBetweenAligningBorders (t : Tab) (id : PaneId) :
    Option (List PaneId) :=
  match t.getPane id with
  | none => none
  | some terminal =>
    let leftCloseBorder := terminal.x
    let rightCloseBorder := terminal.x + terminal.cols + 1
    match t.paneIdsDirectlyAbove id with
    | none => none
    | some terminalsAbove =>
      let terminalBordersAbove := t.verticalBorders terminalsAbove
      if terminalBordersAbove.contains leftCloseBorder
          && terminalBordersAbove.contains rightCloseBorder then
        some (terminalsAbove.filter
          (fun tid => t.paneIsBetweenVerticalBorders tid leftCloseBorder rightCloseBorder))
      else none

/-- panes_below_between_aligning_borders (tab.rs lines 2137-2159). -/
def Tab.panesBelowBetweenAligningBorders (t : Tab) (id : PaneId) :
    Option (List PaneId) :=
  match t.getPane id with
  | none => none
  | some terminal =>
    let leftCloseBorder := terminal.x
    let rightCloseBorder := terminal.x + terminal.cols + 1
    match t.paneIdsDirectlyBelow id with
    | none => none
    | some terminalsBelow =>
      let terminalBordersBelow := t.verticalBorders terminalsBelow
      if terminalBordersBelow.contains leftCloseBorder
          && terminalBordersBelow.contains rightCloseBorder then
        some (terminalsBelow.filter
          (fun tid => t.paneIsBetweenVerticalBorders tid leftCloseBorder rightCloseBorder))
      else none

/-- close_pane (tab.rs lines 2191-2251): exit fullscreen if needed; when the
freed rectangle is Percent x Percent try, in order, the left, right, above and
below aligning bands; the first band found absorbs the freed extent, the pane
is removed, and - when the closed pane was active - the next active pane is
taken from that band walked in reverse (which may be none even when selectable
panes remain elsewhere).  With no band (or a Fixed edge) the pane is simply
removed and the whole tab re-normalised. -/
def Tab.closePane (t : Tab) (id : PaneId) : Tab :=
  let t0 := if t.fullscreenIsActive then t.toggleActivePaneFullscreen else t
  match t0.getPane id with
  | none => t0
  | some paneToClose =>
    let freedSpace := paneToClose.positionAndSize
    match freedSpace.cols.constraint, freedSpace.rows.constraint with
    | Constraint.Percent freedWidth, Constraint.Percent freedHeight =>
      match t0.panesToTheLeftBetweenAligningBorders id with
      | some panes =>
        let t1 := panes.foldl (fun acc pid => acc.increasePaneWidthRight pid freedWidth) t0
        let t2 := t1.removePane id
        if t2.activeTerminal = some id then
          { t2 with activeTerminal := t2.nextActivePane panes }
        else t2
      | none =>
      match t0.panesToTheRightBetweenAligningBorders id with
      | some panes =>
        let t1 := panes.foldl (fun acc pid => acc.increasePaneWidthLeft pid freedWidth) t0
        let t2 := t1.removePane id
        if t2.activeTerminal = some id then
          { t2 with activeTerminal := t2.nextActivePane panes }
        else t2
      | none =>
      match t0.panesAboveBetweenAligningBorders id with
      | some panes =>
        let t1 := panes.foldl (fun acc pid => acc.increasePaneHeightDown pid freedHeight) t0
        let t2 := t1.removePane id
        if t2.activeTerminal = some id then
          { t2 with activeTerminal := t2.nextActivePane panes }
        else t2
      | none =>
      match t0.panesBelowBetweenAligningBorders id with
      | some panes =>
        let t1 := panes.foldl (fun acc pid => acc.increasePaneHeightUp pid freedHeight) t0
        let t2 := t1.removePane id
        if t2.activeTerminal = some id then
          { t2 with activeTerminal := t2.nextActivePane panes }
        else t2
      | none => (t0.removePane id).resizeWholeTab
    | _, _ => (t0.removePane id).resizeWholeTab

/-- close_down_to_max_terminals (tab.rs lines 2160-2170): with a max_panes
limit, every pane id from index max_panes - 1 on is sent a ClosePane message
and closed. -/
def Tab.closeDownToMaxTerminals (t : Tab) : Tab × List PtyInstruction :=
  match t.maxPanes with
  | none => (t, [])
  | some maxPanes =>
    let terminals := t.getPaneIds
    (terminals.drop (maxPanes - 1)).foldl
      (fun acc pid => (acc.1.closePane pid, acc.2 ++ [PtyInstruction.ClosePane pid]))
      (t, [])

/-- The splittability test of new_pane (tab.rs lines 453-456):
`cols ≥ MIN_TERMINAL_WIDTH ∧ rows ≥ MIN_TERMINAL_HEIGHT ∧
 (cols > min_width()*2 ∨ rows > min_height()*2)`. -/
def terminalCanBeSplit (p : Pane) : Bool :=
  decide (p.cols ≥ minTerminalWidth) && decide (p.rows ≥ minTerminalHeight)
    && (decide (p.cols > p.minWidth * 2) || decide (p.rows > p.minHeight * 2))

/-- The score of new_pane's fold (tab.rs lines 451-452):
`(rows * CURSOR_HEIGHT_WIDTH_RATIO) * cols`. -/
def terminalSizeScore (p : Pane) : Nat := p.rows * cursorAspect * p.cols

/-- The victim-selection fold of new_pane (tab.rs lines 446-463): walk the
pane map keeping the splittable pane with the strictly largest score. -/
def Tab.newPaneVictim (t : Tab) : Nat × Option PaneId :=
  t.getPanes.foldl
    (fun acc idAndTerminalToCheck =>
      let terminalToCheck := idAndTerminalToCheck.2
      if terminalCanBeSplit terminalToCheck
          && decide (terminalSizeScore terminalToCheck > acc.1) then
        (terminalSizeScore terminalToCheck, some idAndTerminalToCheck.1)
      else acc)
    (0, none)

/-- Modelled from the spec: `TerminalPane::new` (zellij-server panes, not
under src/) produces a selectable pane with the given geometry and no
override. -/
def newTerminalPane (pid : PaneId) (geom : PaneGeom) : Pane :=
  { pid := pid, geom := geom, geomOverride := none, selectable := true }

/-- new_pane (tab.rs lines 420-509): enforce max_panes, exit fullscreen, then
either install the pane into an empty tab, or split the largest splittable
pane - horizontally when `rows * CURSOR_ASPECT > cols ∧ rows > 2*min_height`,
else vertically when `cols > 2*min_width` - or, when no pane can be split,
send ClosePane for the new pid and return with the tab unchanged.  Returns
the new tab and the messages sent to the PTY host. -/
def Tab.newPane (t : Tab) (pid : PaneId) : Tab × List PtyInstruction :=
  let closedDown := t.closeDownToMaxTerminals
  let t0 := closedDown.1
  let msgs := closedDown.2
  let t0 := if t0.fullscreenIsActive then t0.toggleActivePaneFullscreen else t0
  if !t0.hasPanes then
    match pid with
    | PaneId.Terminal _ =>
      let newTerminal := newTerminalPane pid PaneGeom.defaultGeom
      ({ t0 with panes := insertPane t0.panes pid newTerminal,
                 activeTerminal := some pid }, msgs)
    | PaneId.Plugin _ => (t0, msgs)
  else
    match (t0.newPaneVictim).2 with
    | none => (t0, msgs ++ [PtyInstruction.ClosePane pid])
    | some terminalIdToSplit =>
      match t0.getPane terminalIdToSplit with
      | none => (t0, msgs)
      | some terminalToSplit =>
        let terminalWs := terminalToSplit.positionAndSize
        let t1 :=
          if decide (terminalToSplit.rows * cursorAspect > terminalToSplit.cols)
              && decide (terminalToSplit.rows > terminalToSplit.minHeight * 2) then
            match pid, splitHorizontally terminalWs with
            | PaneId.Terminal _, some winsizes =>
              let t2 := t0.updatePane terminalIdToSplit
                (fun p => p.changePosAndSize winsizes.1)
              let t3 := { t2 with
                panes := insertPane t2.panes pid (newTerminalPane pid winsizes.2) }
              t3.relayoutTab
            | _, _ => t0
          else if decide (terminalToSplit.cols > terminalToSplit.minWidth * 2) then
            match pid, splitVertically terminalWs with
            | PaneId.Terminal _, some winsizes =>
              let t2 := t0.updatePane terminalIdToSplit
                (fun p => p.changePosAndSize winsizes.1)
              let t3 := { t2 with
                panes := insertPane t2.panes pid (newTerminalPane pid winsizes.2) }
              t3.relayoutTab
            | _, _ => t0
          else t0
        (({ t1 with activeTerminal := some pid }).setPaneFrames.renderTab, msgs)

/-! Concrete states used by witnesses and counterexamples. -/

/-- Shorthand for a Percent dimension with a consistent cached cell count. -/
def pctDim (p : ℚ) (cells : Nat) : Dimension := ⟨Constraint.Percent p, cells⟩

/-- A 20 x 17 layout: pane L (Terminal 1) on the left, panes T (Terminal 2)
and B (Terminal 3) stacked on the right, all Percent-sized; B is only 7 cells
wide. -/
def paneSideL : Pane := ⟨PaneId.Terminal 1, ⟨0, 0, pctDim 100 20, pctDim 50 10⟩, none, true⟩

/-- The active right-top pane T of the three-pane layout. -/
def paneSideT : Pane := ⟨PaneId.Terminal 2, ⟨10, 0, pctDim 50 10, pctDim 50 7⟩, none, true⟩

/-- The right-bottom pane B of the three-pane layout (7 cells wide, so a
shrink by 3.5 percent trips the minimum-width check). -/
def paneSideB : Pane := ⟨PaneId.Terminal 3, ⟨10, 10, pctDim 50 10, pctDim 50 7⟩, none, true⟩

/-- The three-pane tab with T active: growing right is impossible (nothing to
the right), shrinking right is permitted by the guard, but the shrink cascade
aborts because side-band pane B would fall below the minimum width. -/
def tabThreePane : Tab :=
  { panes := [(PaneId.Terminal 1, paneSideL), (PaneId.Terminal 2, paneSideT),
              (PaneId.Terminal 3, paneSideB)],
    panesToHide := [], activeTerminal := some (PaneId.Terminal 2),
    viewport := ⟨0, 0, 20, 17⟩, fullscreenIsActive := false, maxPanes := none }

/-- An 80 x 20 viewport with a selectable active pane on top and a
non-selectable pane below it, both inside the viewport. -/
def paneTopActive : Pane := ⟨PaneId.Terminal 1, ⟨0, 0, pctDim 50 10, pctDim 100 80⟩, none, true⟩

/-- The non-selectable lower pane of the two-pane layout. -/
def paneLowerUnselectable : Pane :=
  ⟨PaneId.Terminal 2, ⟨0, 10, pctDim 50 10, pctDim 100 80⟩, none, false⟩

/-- Tab with a non-selectable pane inside the viewport: the spec-side
fullscreen hide set is empty, the code's is not. -/
def tabWithUnselectable : Tab :=
  { panes := [(PaneId.Terminal 1, paneTopActive), (PaneId.Terminal 2, paneLowerUnselectable)],
    panesToHide := [], activeTerminal := some (PaneId.Terminal 1),
    viewport := ⟨0, 0, 20, 80⟩, fullscreenIsActive := false, maxPanes := none }

/-- A pane occupying the lower half of the viewport (bottom edge on the
viewport's bottom edge). -/
def paneBottomHalf : Pane := ⟨PaneId.Terminal 1, ⟨0, 10, pctDim 50 10, pctDim 100 80⟩, none, true⟩

/-- A status-bar pane sitting just below the viewport. -/
def paneStatusBar : Pane := ⟨PaneId.Terminal 2, ⟨0, 20, pctDim 10 2, pctDim 100 80⟩, none, false⟩

/-- Tab whose pane Terminal 1 touches the bottom viewport edge while the
status bar abuts it from below. -/
def tabStatusBelow : Tab :=
  { panes := [(PaneId.Terminal 1, paneBottomHalf), (PaneId.Terminal 2, paneStatusBar)],
    panesToHide := [], activeTerminal := some (PaneId.Terminal 1),
    viewport := ⟨0, 0, 20, 80⟩, fullscreenIsActive := false, maxPanes := none }

/-! Spec-side definitions (written from the spec's words, for comparison with
the source-derived definitions). -/

/-- Spec-side (C7): the half-open y-ranges `[y, y + rows)` of the two panes
intersect. -/
def specYRangesIntersect (self other : Pane) : Prop :=
  (Set.Ico self.y (self.y + self.rows) ∩ Set.Ico other.y (other.y + other.rows)).Nonempty

/-- Spec-side (C3): the set S the claim describes - the ids of selectable
panes inside the viewport other than the active one. -/
def Tab.specFullscreenHideSet (t : Tab) (activePaneId : PaneId) : List PaneId :=
  (t.getPanes.filter
    (fun kp => kp.2.selectable && decide (kp.1 ≠ activePaneId) && t.isInsideViewport kp.1)).map
    (fun kp => kp.1)

/-! Claims C7, C8, C9. -/

/-- C7: for panes with positive rows, the four-disjunct
`horizontally_overlaps_with` test of tab.rs lines 213-219 is exactly
intersection of the half-open y-ranges. -/
theorem c7_horizontal_overlap_iff_interval_intersection (self other : Pane)
    (hs : 0 < self.rows) (ho : 0 < other.rows) :
    self.horizontallyOverlapsWith other = true ↔ specYRangesIntersect self other := by
  unfold specYRangesIntersect
  rw [Set.Ico_inter_Ico, Set.nonempty_Ico]
  simp only [Pane.horizontallyOverlapsWith, Bool.or_eq_true, Bool.and_eq_true,
    decide_eq_true_eq, sup_eq_max, inf_eq_min, ge_iff_le, gt_iff_lt]
  omega

/-- Witness for C7 at concrete panes with positive rows. -/
theorem c7_witness :
    paneBottomHalf.horizontallyOverlapsWith paneSideT = true ↔
      specYRangesIntersect paneBottomHalf paneSideT :=
  c7_horizontal_overlap_iff_interval_intersection paneBottomHalf paneSideT
    (by decide) (by decide)

/-- C8: splitting a Percent(p) geometry yields two geometries with
`Percent(p/2)` on the split axis, the first otherwise identical and the second
offset by one cell; splitting a Fixed geometry fails.  Stated for
split_vertically (cols, x) and split_horizontally (rows, y). -/
theorem c8_split_geometry (g : PaneGeom) :
    (∀ p : ℚ, g.cols.constraint = Constraint.Percent p →
      splitVertically g = some ({ g with cols := Dimension.percentDim (p / 2) },
        { g with x := g.x + 1, cols := Dimension.percentDim (p / 2) }))
    ∧ (∀ n, g.cols.constraint = Constraint.Fixed n → splitVertically g = none)
    ∧ (∀ p : ℚ, g.rows.constraint = Constraint.Percent p →
      splitHorizontally g = some ({ g with rows := Dimension.percentDim (p / 2) },
        { g with y := g.y + 1, rows := Dimension.percentDim (p / 2) }))
    ∧ (∀ n, g.rows.constraint = Constraint.Fixed n → splitHorizontally g = none) := by
  refine ⟨?_, ?_, ?_, ?_⟩ <;> intro v hv <;>
    simp only [splitVertically, splitHorizontally, hv]

/-- Witness for C8: the Percent case and the Fixed case at concrete
geometries. -/
theorem c8_witness :
    splitVertically ⟨0, 0, pctDim 100 20, pctDim 50 17⟩ =
      some (⟨0, 0, pctDim 100 20, Dimension.percentDim (50 / 2)⟩,
            ⟨1, 0, pctDim 100 20, Dimension.percentDim (50 / 2)⟩)
    ∧ splitVertically ⟨0, 0, pctDim 100 20, Dimension.fixedDim 17⟩ = none :=
  ⟨(c8_split_geometry ⟨0, 0, pctDim 100 20, pctDim 50 17⟩).1 50 rfl,
   (c8_split_geometry ⟨0, 0, pctDim 100 20, Dimension.fixedDim 17⟩).2.1 17 rfl⟩

/-- C9: with fullscreen active, get_pane_id_at (tab.rs lines 2342-2350)
returns the active pane id for every position, with no containment check. -/
theorem c9_fullscreen_click_routing (t : Tab) (point : Position)
    (h : t.fullscreenIsActive = true) :
    t.getPaneIdAt point = t.getActivePaneId := by
  simp [Tab.getPaneIdAt, h]

/-- A fullscreen tab: Terminal 1 is active with a viewport override, Terminal
2 is hidden. -/
def tabFullscreen : Tab :=
  { panes := [(PaneId.Terminal 1,
      { paneTopActive with geomOverride := some ⟨0, 0, pctDim 100 0, pctDim 100 0⟩ }),
      (PaneId.Terminal 2, paneLowerUnselectable)],
    panesToHide := [PaneId.Terminal 2], activeTerminal := some (PaneId.Terminal 1),
    viewport := ⟨0, 0, 20, 80⟩, fullscreenIsActive := true, maxPanes := none }

/-- Witness for C9: a position far outside every pane rectangle is still
routed to the active pane. -/
theorem c9_witness :
    tabFullscreen.getPaneIdAt ⟨500, 500⟩ = tabFullscreen.getActivePaneId
    ∧ ((tabFullscreen.getActivePane).map
        (fun p => p.containsPoint ⟨500, 500⟩)).getD false = false :=
  ⟨c9_fullscreen_click_routing tabFullscreen ⟨500, 500⟩ rfl, by decide⟩

/-! Claim C1. -/

/-- C1: each shrink cascade (tab.rs lines 1376-1515) aborts atomically: if any
pane of the two side bands fails the minimum-size check (its cells minus the
truncated delta would drop below the minimum), the cascade returns with the
tab - geometries, pane map and active pane - completely unchanged, before any
mutation.  Stated for all four directions; the band expressions are exactly
the ones the source computes before its early-return loop. -/
theorem c1_reduce_cascade_aborts_atomically (t : Tab) (id : PaneId) :
    (∀ below, t.paneIdsDirectlyBelow id = some below →
      ∀ tid, (tid ∈ (t.bottomAlignedContiguousPanesToTheLeft id
            (below.map (fun b => ((t.getPane b).map (fun p => p.x)).getD 0))).2
          ∨ tid ∈ (t.bottomAlignedContiguousPanesToTheRight id
            (below.map (fun b => ((t.getPane b).map (fun p => p.x)).getD 0))).2) →
        t.sideBandRowsBelowMin resizePercent tid = true →
        t.reducePaneAndSurroundingsUp id resizePercent = some t)
    ∧ (∀ above, t.paneIdsDirectlyAbove id = some above →
      ∀ tid, (tid ∈ (t.topAlignedContiguousPanesToTheLeft id
            (above.map (fun b => ((t.getPane b).map (fun p => p.x)).getD 0))).2
          ∨ tid ∈ (t.topAlignedContiguousPanesToTheRight id
            (above.map (fun b => ((t.getPane b).map (fun p => p.x)).getD 0))).2) →
        t.sideBandRowsBelowMin resizePercent tid = true →
        t.reducePaneAndSurroundingsDown id resizePercent = some t)
    ∧ (∀ right, t.paneIdsDirectlyRightOf id = some right →
      ∀ tid, (tid ∈ (t.rightAlignedContiguousPanesAbove id
            (right.map (fun b => ((t.getPane b).map (fun p => p.y)).getD 0))).2
          ∨ tid ∈ (t.rightAlignedContiguousPanesBelow id
            (right.map (fun b => ((t.getPane b).map (fun p => p.y)).getD 0))).2) →
        t.sideBandColsBelowMin resizePercent tid = true →
        t.reducePaneAndSurroundingsLeft id resizePercent = some t)
    ∧ (∀ left, t.paneIdsDirectlyLeftOf id = some left →
      ∀ tid, (tid ∈ (t.leftAlignedContiguousPanesAbove id
            (left.map (fun b => ((t.getPane b).map (fun p => p.y)).getD 0))).2
          ∨ tid ∈ (t.leftAlignedContiguousPanesBelow id
            (left.map (fun b => ((t.getPane b).map (fun p => p.y)).getD 0))).2) →
        t.sideBandColsBelowMin resizePercent tid = true →
        t.reducePaneAndSurroundingsRight id resizePercent = some t) := by
  refine ⟨?_, ?_, ?_, ?_⟩ <;>
    intro nbr hq tid htid hchk
  · have hany : (((t.bottomAlignedContiguousPanesToTheLeft id
          (nbr.map (fun b => ((t.getPane b).map (fun p => p.x)).getD 0))).2
        ++ (t.bottomAlignedContiguousPanesToTheRight id
          (nbr.map (fun b => ((t.getPane b).map (fun p => p.x)).getD 0))).2).any
        (t.sideBandRowsBelowMin resizePercent)) = true :=
      List.any_eq_true.mpr ⟨tid, List.mem_append.mpr htid, hchk⟩
    simp only [Tab.reducePaneAndSurroundingsUp, hq]
    rw [if_pos hany]
  · have hany : (((t.topAlignedContiguousPanesToTheLeft id
          (nbr.map (fun b => ((t.getPane b).map (fun p => p.x)).getD 0))).2
        ++ (t.topAlignedContiguousPanesToTheRight id
          (nbr.map (fun b => ((t.getPane b).map (fun p => p.x)).getD 0))).2).any
        (t.sideBandRowsBelowMin resizePercent)) = true :=
      List.any_eq_true.mpr ⟨tid, List.mem_append.mpr htid, hchk⟩
    simp only [Tab.reducePaneAndSurroundingsDown, hq]
    rw [if_pos hany]
  · have hany : (((t.rightAlignedContiguousPanesAbove id
          (nbr.map (fun b => ((t.getPane b).map (fun p => p.y)).getD 0))).2
        ++ (t.rightAlignedContiguousPanesBelow id
          (nbr.map (fun b => ((t.getPane b).map (fun p => p.y)).getD 0))).2).any
        (t.sideBandColsBelowMin resizePercent)) = true :=
      List.any_eq_true.mpr ⟨tid, List.mem_append.mpr htid, hchk⟩
    simp only [Tab.reducePaneAndSurroundingsLeft, hq]
    rw [if_pos hany]
  · have hany : (((t.leftAlignedContiguousPanesAbove id
          (nbr.map (fun b => ((t.getPane b).map (fun p => p.y)).getD 0))).2
        ++ (t.leftAlignedContiguousPanesBelow id
          (nbr.map (fun b => ((t.getPane b).map (fun p => p.y)).getD 0))).2).any
        (t.sideBandColsBelowMin resizePercent)) = true :=
      List.any_eq_true.mpr ⟨tid, List.mem_append.mpr htid, hchk⟩
    simp only [Tab.reducePaneAndSurroundingsRight, hq]
    rw [if_pos hany]

/-- Witness for C1: in the three-pane tab, shrinking pane T (Terminal 2)
rightwards would force side-band pane B (Terminal 3, 7 cells wide) below the
minimum width, and the cascade returns the tab unchanged. -/
theorem c1_witness :
    tabThreePane.reducePaneAndSurroundingsRight (PaneId.Terminal 2) resizePercent
      = some tabThreePane :=
  (c1_reduce_cascade_aborts_atomically tabThreePane (PaneId.Terminal 2)).2.2.2
    [PaneId.Terminal 1] (by decide) (PaneId.Terminal 3) (by decide) (by decide)

/-! Claim C4. -/

/-- Helper: membership through the `if empty then None else Some ids` pattern
shared by the four neighbour queries. -/
lemma optList_mem (ids : List α) (x : α) :
    (∃ l, (if ids.isEmpty then none else some ids) = some l ∧ x ∈ l) ↔ x ∈ ids := by
  by_cases h : ids.isEmpty
  · simp [h, List.isEmpty_iff.mp h]
  · simp [h]

/-- C4 counterexample: in `tabStatusBelow` the pane Terminal 1 touches the
bottom viewport edge, yet `pane_ids_directly_below` is not empty - it returns
the status-bar pane abutting from below, because the below/right/above
queries, unlike the left query, have no viewport-edge check.  This refutes
the claim that the four queries symmetrically return empty at their viewport
edge. -/
theorem c4_counterexample :
    (∃ p, tabStatusBelow.getPane (PaneId.Terminal 1) = some p
        ∧ p.y + p.rows = tabStatusBelow.viewport.y + tabStatusBelow.viewport.rows)
    ∧ tabStatusBelow.paneIdsDirectlyBelow (PaneId.Terminal 1) = some [PaneId.Terminal 2] := by
  refine ⟨⟨paneBottomHalf, ?_, ?_⟩, ?_⟩ <;> decide

/-- C4 (amended): the left query returns None when the target touches x = 0
and otherwise returns exactly the panes whose right edge abuts the target's
left edge; the right, above and below queries return exactly the abutting
panes with no viewport-edge check at all (they are empty only when no pane
abuts). -/
theorem c4_direct_neighbour_queries (t : Tab) (id : PaneId) (target : Pane)
    (hget : t.getPane id = some target) :
    (target.x = 0 → t.paneIdsDirectlyLeftOf id = none)
    ∧ (∀ pid, (∃ l, t.paneIdsDirectlyLeftOf id = some l ∧ pid ∈ l) ↔
        (target.x ≠ 0 ∧ ∃ p, (pid, p) ∈ t.panes ∧ p.x + p.cols = target.x))
    ∧ (∀ pid, (∃ l, t.paneIdsDirectlyRightOf id = some l ∧ pid ∈ l) ↔
        (∃ p, (pid, p) ∈ t.panes ∧ p.x = target.x + target.cols))
    ∧ (∀ pid, (∃ l, t.paneIdsDirectlyAbove id = some l ∧ pid ∈ l) ↔
        (∃ p, (pid, p) ∈ t.panes ∧ p.y + p.rows = target.y))
    ∧ (∀ pid, (∃ l, t.paneIdsDirectlyBelow id = some l ∧ pid ∈ l) ↔
        (∃ p, (pid, p) ∈ t.panes ∧ p.y = target.y + target.rows)) := by
  refine ⟨?_, ?_, ?_, ?_, ?_⟩
  · intro h0
    simp [Tab.paneIdsDirectlyLeftOf, hget, h0]
  · intro pid
    simp only [Tab.paneIdsDirectlyLeftOf, hget, Tab.getPanes]
    by_cases h0 : target.x = 0
    · simp [h0]
    · rw [if_neg h0, optList_mem]
      simp only [List.mem_map, List.mem_filter, decide_eq_true_eq]
      constructor
      · rintro ⟨⟨a, b⟩, ⟨hm, hc⟩, rfl⟩
        exact ⟨h0, b, hm, hc⟩
      · rintro ⟨-, p, hm, hc⟩
        exact ⟨(pid, p), ⟨hm, hc⟩, rfl⟩
  · intro pid
    simp only [Tab.paneIdsDirectlyRightOf, hget, Tab.getPanes]
    rw [optList_mem]
    simp only [List.mem_map, List.mem_filter, decide_eq_true_eq]
    constructor
    · rintro ⟨⟨a, b⟩, ⟨hm, hc⟩, rfl⟩
      exact ⟨b, hm, hc⟩
    · rintro ⟨p, hm, hc⟩
      exact ⟨(pid, p), ⟨hm, hc⟩, rfl⟩
  · intro pid
    simp only [Tab.paneIdsDirectlyAbove, hget, Tab.getPanes]
    rw [optList_mem]
    simp only [List.mem_map, List.mem_filter, decide_eq_true_eq]
    constructor
    · rintro ⟨⟨a, b⟩, ⟨hm, hc⟩, rfl⟩
      exact ⟨b, hm, hc⟩
    · rintro ⟨p, hm, hc⟩
      exact ⟨(pid, p), ⟨hm, hc⟩, rfl⟩
  · intro pid
    simp only [Tab.paneIdsDirectlyBelow, hget, Tab.getPanes]
    rw [optList_mem]
    simp only [List.mem_map, List.mem_filter, decide_eq_true_eq]
    constructor
    · rintro ⟨⟨a, b⟩, ⟨hm, hc⟩, rfl⟩
      exact ⟨b, hm, hc⟩
    · rintro ⟨p, hm, hc⟩
      exact ⟨(pid, p), ⟨hm, hc⟩, rfl⟩

/-- Witness for C4: the below query on the concrete tab, through the amended
characterisation. -/
theorem c4_witness :
    ∃ l, tabStatusBelow.paneIdsDirectlyBelow (PaneId.Terminal 1) = some l
        ∧ PaneId.Terminal 2 ∈ l :=
  ((c4_direct_neighbour_queries tabStatusBelow (PaneId.Terminal 1) paneBottomHalf
      (by decide)).2.2.2.2 (PaneId.Terminal 2)).mpr ⟨paneStatusBar, by decide, by decide⟩

/-! Map-update helper lemmas shared by several claims. -/

/-- Looking up the updated key sees the updated value. -/
lemma find?_map_update_self (l : List (PaneId × Pane)) (id : PaneId) (f : Pane → Pane) :
    ((l.map (fun kp => if kp.1 = id then (kp.1, f kp.2) else kp)).find?
        (fun kp => decide (kp.1 = id))).map (fun kp => kp.2)
      = ((l.find? (fun kp => decide (kp.1 = id))).map (fun kp => kp.2)).map f := by
  induction l with
  | nil => simp
  | cons kp rest ih =>
    by_cases h : kp.1 = id
    · simp [List.find?_cons, h]
    · simp only [List.map_cons, if_neg h, List.find?_cons, decide_eq_false h]
      exact ih

/-- Looking up any other key is unaffected by the update. -/
lemma find?_map_update_ne (l : List (PaneId × Pane)) (id j : PaneId) (f : Pane → Pane)
    (hne : j ≠ id) :
    (l.map (fun kp => if kp.1 = id then (kp.1, f kp.2) else kp)).find?
        (fun kp => decide (kp.1 = j))
      = l.find? (fun kp => decide (kp.1 = j)) := by
  induction l with
  | nil => simp
  | cons kp rest ih =>
    by_cases h : kp.1 = id
    · have hj : kp.1 ≠ j := fun e => hne (e.symm.trans h)
      simp only [List.map_cons, if_pos h, List.find?_cons, decide_eq_false hj]
      exact ih
    · by_cases hj : kp.1 = j
      · have hd : decide (kp.1 = j) = true := by simp [hj]
        simp only [List.map_cons, if_neg h, List.find?_cons, hd]
      · simp only [List.map_cons, if_neg h, List.find?_cons, decide_eq_false hj]
        exact ih

/-- getPane after updatePane at the same key. -/
lemma getPane_updatePane_self (t : Tab) (id : PaneId) (f : Pane → Pane) :
    (t.updatePane id f).getPane id = (t.getPane id).map f := by
  simpa [Tab.updatePane, Tab.getPane] using find?_map_update_self t.panes id f

/-- getPane after updatePane at a different key. -/
lemma getPane_updatePane_ne (t : Tab) (id j : PaneId) (f : Pane → Pane) (h : j ≠ id) :
    (t.updatePane id f).getPane j = t.getPane j := by
  simp [Tab.updatePane, Tab.getPane, find?_map_update_ne t.panes id j f h]

/-! Claim C3. -/

/-- C3 counterexample: the tab has a non-selectable pane (Terminal 2) inside
the viewport.  The claim's set S - selectable panes inside the viewport other
than the active one - is empty, so the claim predicts a no-op with the
fullscreen flag staying false; but toggle_active_pane_fullscreen hides
Terminal 2 and sets the flag, because the code filters over all panes, not
only selectable ones. -/
theorem c3_counterexample :
    tabWithUnselectable.specFullscreenHideSet (PaneId.Terminal 1) = []
    ∧ tabWithUnselectable.fullscreenIsActive = false
    ∧ (tabWithUnselectable.toggleActivePaneFullscreen).fullscreenIsActive = true
    ∧ (tabWithUnselectable.toggleActivePaneFullscreen).panesToHide = [PaneId.Terminal 2] := by
  refine ⟨?_, ?_, ?_, ?_⟩ <;> decide

/-- C3 (amended): entering fullscreen computes the hide set as all panes
other than the active one whose vertical extent lies within the viewport
(selectability is not consulted, and `is_inside_viewport` checks only the y
axis); `panes_to_hide` is overwritten with that set; when it is empty nothing
else changes (the overwrite still happens), the fullscreen flag stays false;
otherwise the active pane receives a geometry override whose x and y come
from the viewport and whose dimensions are the default Percent(100) pair,
every other pane keeps its geometry, and the fullscreen flag is set. -/
theorem c3_fullscreen_entering (t : Tab) (activePaneId : PaneId)
    (hFs : t.fullscreenIsActive = false)
    (hAct : t.activeTerminal = some activePaneId) :
    ((t.getPanes.filter (fun kp => decide (kp.1 ≠ activePaneId)
        && t.isInsideViewport kp.1)).map (fun kp => kp.1) = [] →
      t.toggleActivePaneFullscreen = { t with panesToHide := [] })
    ∧ (∀ hideSet, (t.getPanes.filter (fun kp => decide (kp.1 ≠ activePaneId)
        && t.isInsideViewport kp.1)).map (fun kp => kp.1) = hideSet → hideSet ≠ [] →
      (t.toggleActivePaneFullscreen).panesToHide = hideSet
      ∧ (t.toggleActivePaneFullscreen).fullscreenIsActive = true
      ∧ (t.toggleActivePaneFullscreen).getPane activePaneId
          = (t.getPane activePaneId).map (fun p => p.overrideSizeAndPosition
              { PaneGeom.defaultGeom with x := t.viewport.x, y := t.viewport.y })
      ∧ (∀ pid, pid ≠ activePaneId →
          (t.toggleActivePaneFullscreen).getPane pid = t.getPane pid)
      ∧ (t.toggleActivePaneFullscreen).activeTerminal = t.activeTerminal) := by
  constructor
  · intro hS
    simp only [Tab.toggleActivePaneFullscreen, Tab.getActivePaneId, hAct, hFs,
      Bool.false_eq_true, if_false, hS]
    simp
  · intro hideSet hS hne
    simp only [Tab.toggleActivePaneFullscreen, Tab.getActivePaneId, hAct, hFs,
      Bool.false_eq_true, if_false, hS]
    simp only [List.isEmpty_eq_true, hne, if_false]
    refine ⟨rfl, ?_, ?_, ?_, rfl⟩
    · simp [Tab.setForceRender, Tab.setPaneFrames, Tab.resizeWholeTab, Tab.renderTab,
        Tab.toggleFullscreenIsActive, Tab.updatePane]
    · simp only [Tab.setForceRender, Tab.setPaneFrames, Tab.resizeWholeTab, Tab.renderTab,
        Tab.toggleFullscreenIsActive]
      have := getPane_updatePane_self { t with panesToHide := hideSet } activePaneId
        (fun p => p.overrideSizeAndPosition
          { PaneGeom.defaultGeom with x := t.viewport.x, y := t.viewport.y })
      simpa [Tab.getPane] using this
    · intro pid hpid
      simp only [Tab.setForceRender, Tab.setPaneFrames, Tab.resizeWholeTab, Tab.renderTab,
        Tab.toggleFullscreenIsActive]
      have := getPane_updatePane_ne { t with panesToHide := hideSet } activePaneId pid
        (fun p => p.overrideSizeAndPosition
          { PaneGeom.defaultGeom with x := t.viewport.x, y := t.viewport.y }) hpid
      simpa [Tab.getPane] using this

/-- Witness for C3: entering fullscreen on the concrete tab hides exactly the
code's hide set and sets the flag. -/
theorem c3_witness :
    (tabWithUnselectable.toggleActivePaneFullscreen).panesToHide = [PaneId.Terminal 2]
    ∧ (tabWithUnselectable.toggleActivePaneFullscreen).fullscreenIsActive = true :=
  ⟨((c3_fullscreen_entering tabWithUnselectable (PaneId.Terminal 1) rfl rfl).2
      [PaneId.Terminal 2] (by decide) (by decide)).1,
   ((c3_fullscreen_entering tabWithUnselectable (PaneId.Terminal 1) rfl rfl).2
      [PaneId.Terminal 2] (by decide) (by decide)).2.1⟩

/-! Claim C5. -/

/-- A splittable pane has a positive score. -/
lemma splittable_score_pos (p : Pane) (h : terminalCanBeSplit p = true) :
    0 < terminalSizeScore p := by
  unfold terminalCanBeSplit at h
  unfold terminalSizeScore
  simp only [Bool.and_eq_true, Bool.or_eq_true, decide_eq_true_eq] at h
  have h1 : 0 < p.cols := lt_of_lt_of_le (by norm_num [minTerminalWidth]) h.1.1
  have h2 : 0 < p.rows := lt_of_lt_of_le (by norm_num [minTerminalHeight]) h.1.2
  have : 0 < cursorAspect := by norm_num [cursorAspect]
  positivity

/-- Invariant of new_pane's victim-selection fold: the accumulator is either
untouched or holds a splittable pane of the list together with its score, the
final score bounds every splittable pane's score, and the score never
decreases. -/
lemma newPaneVictim_fold (l : List (PaneId × Pane)) (s : Nat) (o : Option PaneId) :
    (l.foldl (fun acc kp =>
        if terminalCanBeSplit kp.2 && decide (terminalSizeScore kp.2 > acc.1) then
          (terminalSizeScore kp.2, some kp.1) else acc) (s, o) = (s, o)
      ∨ ∃ kp ∈ l, terminalCanBeSplit kp.2 = true
          ∧ (l.foldl (fun acc kp =>
              if terminalCanBeSplit kp.2 && decide (terminalSizeScore kp.2 > acc.1) then
                (terminalSizeScore kp.2, some kp.1) else acc) (s, o)).2 = some kp.1
          ∧ (l.foldl (fun acc kp =>
              if terminalCanBeSplit kp.2 && decide (terminalSizeScore kp.2 > acc.1) then
                (terminalSizeScore kp.2, some kp.1) else acc) (s, o)).1
            = terminalSizeScore kp.2)
    ∧ (∀ kp ∈ l, terminalCanBeSplit kp.2 = true →
        terminalSizeScore kp.2 ≤ (l.foldl (fun acc kp =>
          if terminalCanBeSplit kp.2 && decide (terminalSizeScore kp.2 > acc.1) then
            (terminalSizeScore kp.2, some kp.1) else acc) (s, o)).1)
    ∧ s ≤ (l.foldl (fun acc kp =>
        if terminalCanBeSplit kp.2 && decide (terminalSizeScore kp.2 > acc.1) then
          (terminalSizeScore kp.2, some kp.1) else acc) (s, o)).1 := by
  induction l generalizing s o with
  | nil => exact ⟨Or.inl rfl, by simp, le_refl s⟩
  | cons kp rest ih =>
    simp only [List.foldl_cons]
    by_cases hc : (terminalCanBeSplit kp.2 && decide (terminalSizeScore kp.2 > s)) = true
    · rw [if_pos hc]
      simp only [Bool.and_eq_true, decide_eq_true_eq] at hc
      obtain ⟨hd, hb, hs⟩ := ih (terminalSizeScore kp.2) (some kp.1)
      refine ⟨?_, ?_, ?_⟩
      · rcases hd with hd | ⟨kq, hm, hq1, hq2, hq3⟩
        · exact Or.inr ⟨kp, List.mem_cons_self kp rest, hc.1, by rw [hd], by rw [hd]⟩
        · exact Or.inr ⟨kq, List.mem_cons_of_mem kp hm, hq1, hq2, hq3⟩
      · intro kq hm hq
        rcases List.mem_cons.mp hm with rfl | hm
        · exact le_trans hs (le_refl _)
        · exact hb kq hm hq
      · exact le_trans (le_of_lt hc.2) hs
    · rw [if_neg hc]
      obtain ⟨hd, hb, hs⟩ := ih s o
      refine ⟨?_, ?_, ?_⟩
      · rcases hd with hd | ⟨kq, hm, hq1, hq2, hq3⟩
        · exact Or.inl hd
        · exact Or.inr ⟨kq, List.mem_cons_of_mem kp hm, hq1, hq2, hq3⟩
      · intro kq hm hq
        rcases List.mem_cons.mp hm with rfl | hm
        · have : ¬ terminalSizeScore kq.2 > s := by
            intro hgt
            exact hc (by simp [hq, hgt])
          exact le_trans (Nat.le_of_not_lt this) hs
        · exact hb kq hm hq
      · exact hs

/-- C5: new_pane's victim is None exactly when no pane passes the
splittability predicate `cols ≥ 5 ∧ rows ≥ 5 ∧ (cols > 10 ∨ rows > 10)`; a
chosen victim is a splittable pane whose score `rows·4·cols` is maximal among
splittable panes; and with no victim, new_pane sends ClosePane(pid) to the
PTY host and returns the tab (pane map, geometries, active pane) unchanged. -/
theorem c5_new_pane_victim (t : Tab) (pid : PaneId)
    (hFs : t.fullscreenIsActive = false) (hMax : t.maxPanes = none)
    (hNe : t.hasPanes = true) :
    ((t.newPaneVictim).2 = none ↔ ∀ kp ∈ t.getPanes, terminalCanBeSplit kp.2 = false)
    ∧ (∀ v, (t.newPaneVictim).2 = some v →
        ∃ kp ∈ t.getPanes, kp.1 = v ∧ terminalCanBeSplit kp.2 = true
          ∧ ∀ kq ∈ t.getPanes, terminalCanBeSplit kq.2 = true →
              terminalSizeScore kq.2 ≤ terminalSizeScore kp.2)
    ∧ ((t.newPaneVictim).2 = none →
        t.newPane pid = (t, [PtyInstruction.ClosePane pid])) := by
  obtain ⟨hd, hb, hs⟩ := newPaneVictim_fold t.getPanes 0 none
  have hvic : t.newPaneVictim = t.getPanes.foldl (fun acc kp =>
      if terminalCanBeSplit kp.2 && decide (terminalSizeScore kp.2 > acc.1) then
        (terminalSizeScore kp.2, some kp.1) else acc) (0, none) := rfl
  refine ⟨⟨?_, ?_⟩, ?_, ?_⟩
  · intro hnone kp hm
    by_contra hsp
    have hsp : terminalCanBeSplit kp.2 = true := by
      cases h : terminalCanBeSplit kp.2
      · exact absurd h hsp
      · rfl
    have hpos := splittable_score_pos kp.2 hsp
    have hle := hb kp hm hsp
    rcases hd with heq | ⟨kq, _, _, hq2, _⟩
    · rw [heq] at hle
      simp at hle
      omega
    · rw [hvic] at hnone
      rw [hnone] at hq2
      exact Option.noConfusion hq2
  · intro hall
    rcases hd with heq | ⟨kq, hm, hq1, hq2, _⟩
    · rw [hvic, heq]
    · rw [hall kq hm] at hq1
      exact Bool.noConfusion hq1
  · intro v hv
    rcases hd with heq | ⟨kq, hm, hq1, hq2, hq3⟩
    · rw [hvic, heq] at hv
      exact Option.noConfusion hv
    · rw [hvic] at hv
      rw [hv] at hq2
      refine ⟨kq, hm, (Option.some.injEq _ _).mp hq2.symm, hq1, ?_⟩
      intro kr hmr hr
      have := hb kr hmr hr
      rw [hq3] at this
      exact this
  · intro hnone
    simp only [Tab.newPane, Tab.closeDownToMaxTerminals, hMax, hFs, Bool.false_eq_true,
      if_false, hNe, Bool.not_true, hnone]
    simp

/-- An 8 x 8 pane: too small to split (neither axis exceeds twice its
minimum). -/
def paneSmall : Pane := ⟨PaneId.Terminal 1, ⟨0, 0, pctDim 100 8, pctDim 100 8⟩, none, true⟩

/-- A tab whose only pane is unsplittable. -/
def tabSmallPane : Tab :=
  { panes := [(PaneId.Terminal 1, paneSmall)],
    panesToHide := [], activeTerminal := some (PaneId.Terminal 1),
    viewport := ⟨0, 0, 8, 8⟩, fullscreenIsActive := false, maxPanes := none }

/-- Witness for C5: on the unsplittable tab, new_pane closes the new pid and
changes nothing. -/
theorem c5_witness :
    tabSmallPane.newPane (PaneId.Terminal 9)
      = (tabSmallPane, [PtyInstruction.ClosePane (PaneId.Terminal 9)]) :=
  (c5_new_pane_victim tabSmallPane (PaneId.Terminal 9) rfl rfl rfl).2.2 (by decide)

/-! Claim C6. -/

/-- Index returned by `Iterator::position` points at an element satisfying the
predicate. -/
lemma listPosition_get (p : α → Bool) (l : List α) (i : Nat)
    (h : listPosition p l = some i) : ∃ x, l.get? i = some x ∧ p x = true := by
  induction l generalizing i with
  | nil => simp [listPosition] at h
  | cons a as ih =>
    by_cases hp : p a
    · simp only [listPosition, hp, if_true, Option.some.injEq] at h
      subst h
      exact ⟨a, rfl, hp⟩
    · simp only [listPosition, hp, if_false] at h
      cases hq : listPosition p as with
      | none => rw [hq] at h; simp at h
      | some j =>
        rw [hq] at h
        simp only [Bool.false_eq_true, if_false, Option.map_some', Option.some.injEq] at h
        subst h
        obtain ⟨x, hx, hpx⟩ := ih j hq
        exact ⟨x, by simpa using hx, hpx⟩

/-- A member satisfying the predicate guarantees `position` finds an index. -/
lemma listPosition_of_mem (p : α → Bool) (l : List α) (x : α)
    (hx : x ∈ l) (hp : p x = true) : ∃ i, listPosition p l = some i := by
  induction l with
  | nil => cases hx
  | cons a as ih =>
    by_cases hpa : p a
    · exact ⟨0, by simp [listPosition, hpa]⟩
    · rcases List.mem_cons.mp hx with rfl | hm
      · exact absurd hp hpa
      · obtain ⟨j, hj⟩ := ih hm
        exact ⟨j + 1, by simp [listPosition, hpa, hj]⟩

/-- With distinct keys, `position` applied to the key of the j-th element
finds exactly j. -/
lemma listPosition_nodup (f : α → β) [DecidableEq β] (l : List α)
    (hn : (l.map f).Nodup) (j : Nat) (e : α) (he : l.get? j = some e) :
    listPosition (fun y => decide (f y = f e)) l = some j := by
  induction l generalizing j with
  | nil => simp at he
  | cons a as ih =>
    cases j with
    | zero =>
      simp only [List.get?_cons_zero, Option.some.injEq] at he
      subst he
      simp [listPosition]
    | succ k =>
      have he2 : as.get? k = some e := by simpa using he
      have hmem : e ∈ as := List.get?_mem he2
      have hn2 : (as.map f).Nodup := (List.nodup_cons.mp (by simpa using hn)).2
      have hfa : (f a = f e) → False := by
        intro hcontra
        have hin : f e ∈ as.map f := List.mem_map_of_mem f hmem
        have hout : f a ∉ as.map f := (List.nodup_cons.mp (by simpa using hn)).1
        exact hout (hcontra ▸ hin)
      have hda : decide (f a = f e) = false := decide_eq_false hfa
      simp only [listPosition, hda, if_false, ih hn2 k he2, Option.map_some']
      simp

/-- Stable insertion is a permutation. -/
lemma insertBy_perm (le : α → α → Bool) (x : α) (l : List α) :
    (insertBy le x l).Perm (x :: l) := by
  induction l with
  | nil => exact List.Perm.refl _
  | cons y ys ih =>
    unfold insertBy
    by_cases h : le x y
    · rw [if_pos h]
    · rw [if_neg h]
      exact List.Perm.trans (List.Perm.cons y ih) (List.Perm.swap x y ys)

/-- The modelled stable sort is a permutation. -/
lemma sortBy_perm (le : α → α → Bool) (l : List α) : (sortBy le l).Perm l := by
  induction l with
  | nil => exact List.Perm.refl _
  | cons x xs ih =>
    unfold sortBy
    exact List.Perm.trans (insertBy_perm le x (sortBy le xs)) (List.Perm.cons x ih)

/-- focus_next_pane when a next entry exists: focus moves to it. -/
lemma focusNextPane_chara (t : Tab) (a : PaneId) (first q : PaneId × Pane) (i : Nat)
    (hSel : t.hasSelectablePanes = true) (hFs : t.fullscreenIsActive = false)
    (hAct : t.activeTerminal = some a)
    (hfirst : (sortBy rowMajorLe t.getSelectablePanes).head? = some first)
    (hi : listPosition (fun kp => decide (kp.1 = a))
      (sortBy rowMajorLe t.getSelectablePanes) = some i)
    (hq : (sortBy rowMajorLe t.getSelectablePanes).get? (i + 1) = some q) :
    t.focusNextPane = { t with activeTerminal := some q.1 } := by
  simp only [Tab.focusNextPane, Tab.getActivePaneId, hSel, hFs, hAct, hfirst, hi, hq,
    Tab.renderTab, Bool.not_true, Bool.false_eq_true, if_false]

/-- focus_next_pane at the end of the order: focus wraps to the first entry. -/
lemma focusNextPane_charb (t : Tab) (a : PaneId) (first : PaneId × Pane) (i : Nat)
    (hSel : t.hasSelectablePanes = true) (hFs : t.fullscreenIsActive = false)
    (hAct : t.activeTerminal = some a)
    (hfirst : (sortBy rowMajorLe t.getSelectablePanes).head? = some first)
    (hi : listPosition (fun kp => decide (kp.1 = a))
      (sortBy rowMajorLe t.getSelectablePanes) = some i)
    (hq : (sortBy rowMajorLe t.getSelectablePanes).get? (i + 1) = none) :
    t.focusNextPane = { t with activeTerminal := some first.1 } := by
  simp only [Tab.focusNextPane, Tab.getActivePaneId, hSel, hFs, hAct, hfirst, hi, hq,
    Tab.renderTab, Bool.not_true, Bool.false_eq_true, if_false]

/-- focus_previous_pane at the first entry: focus wraps to the last entry. -/
lemma focusPreviousPane_char0 (t : Tab) (a : PaneId) (lastP : PaneId × Pane)
    (hSel : t.hasSelectablePanes = true) (hFs : t.fullscreenIsActive = false)
    (hAct : t.activeTerminal = some a)
    (hlast : (sortBy rowMajorLe t.getSelectablePanes).getLast? = some lastP)
    (hj : listPosition (fun kp => decide (kp.1 = a))
      (sortBy rowMajorLe t.getSelectablePanes) = some 0) :
    t.focusPreviousPane = { t with activeTerminal := some lastP.1 } := by
  simp only [Tab.focusPreviousPane, Tab.getActivePaneId, hSel, hFs, hAct, hlast, hj,
    Tab.renderTab, Bool.not_true, Bool.false_eq_true, if_false]
  simp

/-- focus_previous_pane at a later entry: focus moves back one entry. -/
lemma focusPreviousPane_charS (t : Tab) (a : PaneId) (lastP q : PaneId × Pane) (k : Nat)
    (hSel : t.hasSelectablePanes = true) (hFs : t.fullscreenIsActive = false)
    (hAct : t.activeTerminal = some a)
    (hlast : (sortBy rowMajorLe t.getSelectablePanes).getLast? = some lastP)
    (hj : listPosition (fun kp => decide (kp.1 = a))
      (sortBy rowMajorLe t.getSelectablePanes) = some (k + 1))
    (hq : (sortBy rowMajorLe t.getSelectablePanes).get? k = some q) :
    t.focusPreviousPane = { t with activeTerminal := some q.1 } := by
  have hk : k + 1 - 1 = k := rfl
  simp only [Tab.focusPreviousPane, Tab.getActivePaneId, hSel, hFs, hAct, hlast, hj,
    Tab.renderTab, Bool.not_true, Bool.false_eq_true, if_false, hk, hq]
  simp

/-- C6: with a selectable active pane, fullscreen off and distinct pane ids,
focus_next_pane followed by focus_previous_pane restores the original active
pane; both iterate the selectable panes sorted row-major (y, then x) with
wrap-around. -/
theorem c6_focus_next_previous_roundtrip (t : Tab) (a : PaneId) (pa : Pane)
    (hN : (t.panes.map (fun kp => kp.1)).Nodup)
    (hFs : t.fullscreenIsActive = false)
    (hAct : t.activeTerminal = some a)
    (hMem : (a, pa) ∈ t.panes) (hSelA : pa.selectable = true) :
    ((t.focusNextPane).focusPreviousPane).activeTerminal = some a := by
  have hmemSel : (a, pa) ∈ t.getSelectablePanes := by
    unfold Tab.getSelectablePanes
    exact List.mem_filter.mpr ⟨hMem, hSelA⟩
  have hmemL : (a, pa) ∈ sortBy rowMajorLe t.getSelectablePanes :=
    ((sortBy_perm rowMajorLe t.getSelectablePanes).mem_iff).mpr hmemSel
  have hSel : t.hasSelectablePanes = true := by
    unfold Tab.hasSelectablePanes
    cases hE : t.getSelectablePanes with
    | nil => rw [hE] at hmemSel; cases hmemSel
    | cons x xs => simp
  have hNl : ((sortBy rowMajorLe t.getSelectablePanes).map (fun kp => kp.1)).Nodup := by
    have hsub : t.getSelectablePanes.Sublist t.panes := List.filter_sublist _
    have h1 : (t.getSelectablePanes.map (fun kp => kp.1)).Nodup :=
      (hsub.map (fun kp => kp.1)).nodup hN
    exact ((sortBy_perm rowMajorLe t.getSelectablePanes).map (fun kp => kp.1)).nodup_iff.mpr h1
  obtain ⟨i, hi⟩ := listPosition_of_mem (fun kp => decide (kp.1 = a)) _ (a, pa) hmemL (by simp)
  have hne : sortBy rowMajorLe t.getSelectablePanes ≠ [] := by
    intro he
    rw [he] at hmemL
    cases hmemL
  obtain ⟨first, hfirst⟩ : ∃ f, (sortBy rowMajorLe t.getSelectablePanes).head? = some f := by
    cases hE : sortBy rowMajorLe t.getSelectablePanes with
    | nil => exact absurd hE hne
    | cons x xs => exact ⟨x, rfl⟩
  obtain ⟨lastP, hlast⟩ : ∃ f, (sortBy rowMajorLe t.getSelectablePanes).getLast? = some f := by
    cases hE : sortBy rowMajorLe t.getSelectablePanes with
    | nil => exact absurd hE hne
    | cons x xs => exact ⟨(x :: xs).getLast (by simp), List.getLast?_eq_getLast _ _⟩
  obtain ⟨xa, hxa, hxa2⟩ := listPosition_get _ _ _ hi
  have hxa1 : xa.1 = a := by simpa using hxa2
  cases hq : (sortBy rowMajorLe t.getSelectablePanes).get? (i + 1) with
  | some q =>
    rw [focusNextPane_chara t a first q i hSel hFs hAct hfirst hi hq]
    have hup : ({ t with activeTerminal := some q.1 } : Tab).getSelectablePanes
        = t.getSelectablePanes := rfl
    have hj : listPosition (fun kp => decide (kp.1 = q.1))
        (sortBy rowMajorLe t.getSelectablePanes) = some (i + 1) :=
      listPosition_nodup (fun kp => kp.1) _ hNl (i + 1) q hq
    rw [focusPreviousPane_charS { t with activeTerminal := some q.1 } q.1 lastP xa i
      hSel hFs rfl (by rw [hup, hlast]) (by rw [hup]; exact hj) (by rw [hup, hxa])]
    simpa using hxa1
  | none =>
    rw [focusNextPane_charb t a first i hSel hFs hAct hfirst hi hq]
    have hup : ({ t with activeTerminal := some first.1 } : Tab).getSelectablePanes
        = t.getSelectablePanes := rfl
    have hfirst0 : (sortBy rowMajorLe t.getSelectablePanes).get? 0 = some first := by
      rw [List.get?_eq_getElem?, ← List.head?_eq_getElem?]
      exact hfirst
    have hj0 : listPosition (fun kp => decide (kp.1 = first.1))
        (sortBy rowMajorLe t.getSelectablePanes) = some 0 :=
      listPosition_nodup (fun kp => kp.1) _ hNl 0 first hfirst0
    have hilen : i < (sortBy rowMajorLe t.getSelectablePanes).length := by
      have := List.get?_eq_getElem? (sortBy rowMajorLe t.getSelectablePanes) i
      rw [this] at hxa
      exact (List.getElem?_eq_some_iff.mp hxa).1
    have hlen : (sortBy rowMajorLe t.getSelectablePanes).length ≤ i + 1 := by
      have := List.get?_eq_getElem? (sortBy rowMajorLe t.getSelectablePanes) (i + 1)
      rw [this] at hq
      exact List.getElem?_eq_none_iff.mp hq
    have hieq : i = (sortBy rowMajorLe t.getSelectablePanes).length - 1 := by omega
    have hlastxa : lastP = xa := by
      rw [List.getLast?_eq_getElem?, ← hieq, ← List.get?_eq_getElem?, hxa] at hlast
      exact (Option.some.injEq _ _).mp hlast.symm
    rw [focusPreviousPane_char0 { t with activeTerminal := some first.1 } first.1 lastP
      hSel hFs rfl (by rw [hup, hlast]) (by rw [hup]; exact hj0)]
    simp only [hlastxa]
    simpa using hxa1


/-- The lower pane of the two-pane layout, selectable. -/
def paneLowerSelectable : Pane :=
  ⟨PaneId.Terminal 2, ⟨0, 10, pctDim 50 10, pctDim 100 80⟩, none, true⟩

/-- A tab with two selectable panes stacked vertically, the top one active. -/
def tabTwoSelectable : Tab :=
  { panes := [(PaneId.Terminal 1, paneTopActive), (PaneId.Terminal 2, paneLowerSelectable)],
    panesToHide := [], activeTerminal := some (PaneId.Terminal 1),
    viewport := ⟨0, 0, 20, 80⟩, fullscreenIsActive := false, maxPanes := none }

/-- Witness for C6 on the concrete two-pane tab. -/
theorem c6_witness :
    ((tabTwoSelectable.focusNextPane).focusPreviousPane).activeTerminal
      = some (PaneId.Terminal 1) :=
  c6_focus_next_previous_roundtrip tabTwoSelectable (PaneId.Terminal 1) paneTopActive
    (by decide) rfl rfl (by decide) rfl

/-! Claim C10. -/

/-- Removing one key leaves lookups of other keys alone (list level). -/
lemma find?_filter_ne (l : List (PaneId × Pane)) (id j : PaneId) (hne : j ≠ id) :
    (l.filter (fun kp => decide (kp.1 ≠ id))).find? (fun kp => decide (kp.1 = j))
      = l.find? (fun kp => decide (kp.1 = j)) := by
  induction l with
  | nil => simp
  | cons kp rest ih =>
    by_cases hk : kp.1 = id
    · have hj : decide (kp.1 = j) = false := decide_eq_false (fun e => hne (e.symm.trans hk))
      rw [List.filter_cons, if_neg (by simp [hk]), List.find?_cons, hj]
      exact ih
    · rw [List.filter_cons, if_pos (by simp [hk]), List.find?_cons]
      by_cases hj : kp.1 = j
      · rw [List.find?_cons]
        simp [hj]
      · rw [decide_eq_false hj, List.find?_cons, decide_eq_false hj]
        exact ih

/-- getPane after removePane at a different key. -/
lemma getPane_removePane_ne (t : Tab) (id j : PaneId) (h : j ≠ id) :
    (t.removePane id).getPane j = t.getPane j := by
  simp only [Tab.removePane, Tab.getPane, find?_filter_ne t.panes id j h]

/-- A pane projection untouched by the update function survives updatePane at
every key. -/
lemma getPane_updatePane_proj {γ : Type} (φ : Pane → γ) (t : Tab) (id j : PaneId)
    (f : Pane → Pane) (hf : ∀ p, φ (f p) = φ p) :
    ((t.updatePane id f).getPane j).map φ = (t.getPane j).map φ := by
  by_cases h : j = id
  · subst h
    rw [getPane_updatePane_self]
    cases t.getPane j with
    | none => rfl
    | some p => simp [hf]
  · rw [getPane_updatePane_ne t id j f h]

/-- A pane projection invariant under each step survives a fold of steps. -/
lemma getPane_foldl_proj {γ : Type} (φ : Pane → γ) (step : Tab → PaneId → Tab) (j : PaneId)
    (hstep : ∀ s tid, (((step s tid).getPane j).map φ) = ((s.getPane j).map φ))
    (l : List PaneId) (t : Tab) :
    (((l.foldl step t).getPane j).map φ) = ((t.getPane j).map φ) := by
  induction l generalizing t with
  | nil => rfl
  | cons a as ih =>
    rw [List.foldl_cons, ih (step t a), hstep]

/-- find? only depends on the predicate values on the list. -/
lemma find?_congrP (l : List α) (p q : α → Bool) (h : ∀ x ∈ l, p x = q x) :
    l.find? p = l.find? q := by
  induction l with
  | nil => rfl
  | cons a as ih =>
    have ha := h a (List.mem_cons_self a as)
    simp only [List.find?_cons, ha]
    cases q a
    · exact ih (fun x hx => h x (List.mem_cons_of_mem a hx))
    · rfl

/-- Unpack membership in a filtered-and-projected pane list. -/
lemma mem_queryIds {c : PaneId × Pane → Bool} {l : List (PaneId × Pane)} {pid : PaneId}
    (h : pid ∈ (l.filter c).map (fun kp => kp.1)) :
    ∃ p, (pid, p) ∈ l ∧ c (pid, p) = true := by
  simp only [List.mem_map, List.mem_filter] at h
  obtain ⟨⟨a, b⟩, ⟨hm, hc⟩, rfl⟩ := h
  exact ⟨b, hm, hc⟩

/-- With distinct keys, a member and the find? result at its key agree (list
level). -/
lemma mem_find?_unique (l : List (PaneId × Pane))
    (hN : (l.map (fun kp => kp.1)).Nodup) (id : PaneId) (p q : Pane)
    (hm : (id, p) ∈ l)
    (hq : (l.find? (fun kp => decide (kp.1 = id))).map (fun kp => kp.2) = some q) :
    p = q := by
  induction l with
  | nil => cases hm
  | cons kp rest ih =>
    have hN0 : (kp.1 :: List.map (fun kp => kp.1) rest).Nodup := by
      rw [List.map_cons] at hN
      exact hN
    have hN2 := List.nodup_cons.mp hN0
    by_cases hk : kp.1 = id
    · have hd : decide (kp.1 = id) = true := by simp [hk]
      rw [List.find?_cons, hd] at hq
      simp only [Option.map_some', Option.some.injEq] at hq
      rcases List.mem_cons.mp hm with he | hm2
      · rw [← hq, ← he]
      · exfalso
        have hin : id ∈ rest.map (fun kp => kp.1) :=
          List.mem_map_of_mem (fun kp => kp.1) hm2
        exact hN2.1 (hk ▸ hin)
    · rw [List.find?_cons, decide_eq_false hk] at hq
      rcases List.mem_cons.mp hm with he | hm2
      · exact absurd (congrArg Prod.fst he).symm hk
      · exact ih hN2.2 hm2 hq

/-- With distinct keys, a member and getPane at its key agree. -/
lemma mem_getPane_unique (t : Tab) (hN : (t.panes.map (fun kp => kp.1)).Nodup)
    (id : PaneId) (p q : Pane) (hm : (id, p) ∈ t.panes) (hq : t.getPane id = some q) :
    p = q :=
  mem_find?_unique t.panes hN id p q hm (by simpa [Tab.getPane] using hq)

/-- A tab projection invariant under each step survives a fold of steps. -/
lemma foldl_tabproj {γ : Type} (φ : Tab → γ) (step : Tab → PaneId → Tab)
    (hstep : ∀ s tid, φ (step s tid) = φ s) (l : List PaneId) (t : Tab) :
    φ (l.foldl step t) = φ t := by
  induction l generalizing t with
  | nil => rfl
  | cons a as ih => rw [List.foldl_cons, ih (step t a), hstep]

/-- Inverting the `if empty then None else Some ids` pattern. -/
lemma optList_eq_some {ids L : List α}
    (h : (if ids.isEmpty then none else some ids) = some L) : L = ids := by
  by_cases hE : ids.isEmpty
  · rw [if_pos hE] at h; cases h
  · rw [if_neg hE] at h
    exact ((Option.some.injEq _ _).mp h).symm

/-- A member of the left-neighbour query abuts the target from the left. -/
lemma paneIdsDirectlyLeftOf_mem (t : Tab) (id : PaneId) (target : Pane) (L : List PaneId)
    (hget : t.getPane id = some target) (hQ : t.paneIdsDirectlyLeftOf id = some L)
    (tid : PaneId) (htid : tid ∈ L) :
    ∃ p, (tid, p) ∈ t.panes ∧ p.x + p.cols = target.x := by
  simp only [Tab.paneIdsDirectlyLeftOf, hget] at hQ
  by_cases h0 : target.x = 0
  · rw [if_pos h0] at hQ; cases hQ
  · rw [if_neg h0] at hQ
    have hL := optList_eq_some hQ
    subst hL
    obtain ⟨p, hm, hc⟩ := mem_queryIds htid
    exact ⟨p, hm, by simpa using hc⟩

/-- A member of the right-neighbour query abuts the target from the right. -/
lemma paneIdsDirectlyRightOf_mem (t : Tab) (id : PaneId) (target : Pane) (L : List PaneId)
    (hget : t.getPane id = some target) (hQ : t.paneIdsDirectlyRightOf id = some L)
    (tid : PaneId) (htid : tid ∈ L) :
    ∃ p, (tid, p) ∈ t.panes ∧ p.x = target.x + target.cols := by
  simp only [Tab.paneIdsDirectlyRightOf, hget] at hQ
  have hL := optList_eq_some hQ
  subst hL
  obtain ⟨p, hm, hc⟩ := mem_queryIds htid
  exact ⟨p, hm, by simpa using hc⟩

/-- A member of the above-neighbour query abuts the target from above. -/
lemma paneIdsDirectlyAbove_mem (t : Tab) (id : PaneId) (target : Pane) (L : List PaneId)
    (hget : t.getPane id = some target) (hQ : t.paneIdsDirectlyAbove id = some L)
    (tid : PaneId) (htid : tid ∈ L) :
    ∃ p, (tid, p) ∈ t.panes ∧ p.y + p.rows = target.y := by
  simp only [Tab.paneIdsDirectlyAbove, hget] at hQ
  have hL := optList_eq_some hQ
  subst hL
  obtain ⟨p, hm, hc⟩ := mem_queryIds htid
  exact ⟨p, hm, by simpa using hc⟩

/-- A member of the below-neighbour query abuts the target from below. -/
lemma paneIdsDirectlyBelow_mem (t : Tab) (id : PaneId) (target : Pane) (L : List PaneId)
    (hget : t.getPane id = some target) (hQ : t.paneIdsDirectlyBelow id = some L)
    (tid : PaneId) (htid : tid ∈ L) :
    ∃ p, (tid, p) ∈ t.panes ∧ p.y = target.y + target.rows := by
  simp only [Tab.paneIdsDirectlyBelow, hget] at hQ
  have hL := optList_eq_some hQ
  subst hL
  obtain ⟨p, hm, hc⟩ := mem_queryIds htid
  exact ⟨p, hm, by simpa using hc⟩

/-- C10: when close_pane removes the active pane and a reclaiming band exists
(tried in the order left, right, above, below), the next active pane is the
result of walking that band in reverse for the first selectable pane - chosen
only from the band, so it is None whenever no band member is selectable, even
if selectable panes exist elsewhere.  Hypotheses: fullscreen off, distinct
keys, a Percent x Percent freed rectangle, and positive cell extents for the
closed pane. -/
theorem c10_close_pane_next_active_from_band (t : Tab) (id : PaneId) (target : Pane)
    (hN : (t.panes.map (fun kp => kp.1)).Nodup)
    (hFs : t.fullscreenIsActive = false)
    (hget : t.getPane id = some target)
    (hcols : 0 < target.cols) (hrows : 0 < target.rows)
    (fw fh : ℚ)
    (hW : target.geom.cols.constraint = Constraint.Percent fw)
    (hH : target.geom.rows.constraint = Constraint.Percent fh)
    (hAct : t.activeTerminal = some id) :
    (∀ B, t.panesToTheLeftBetweenAligningBorders id = some B →
      (t.closePane id).activeTerminal
        = B.reverse.find?
            (fun pid => ((t.getPane pid).map (fun p => p.selectable)).getD false))
    ∧ (∀ B, t.panesToTheLeftBetweenAligningBorders id = none →
        t.panesToTheRightBetweenAligningBorders id = some B →
      (t.closePane id).activeTerminal
        = B.reverse.find?
            (fun pid => ((t.getPane pid).map (fun p => p.selectable)).getD false))
    ∧ (∀ B, t.panesToTheLeftBetweenAligningBorders id = none →
        t.panesToTheRightBetweenAligningBorders id = none →
        t.panesAboveBetweenAligningBorders id = some B →
      (t.closePane id).activeTerminal
        = B.reverse.find?
            (fun pid => ((t.getPane pid).map (fun p => p.selectable)).getD false))
    ∧ (∀ B, t.panesToTheLeftBetweenAligningBorders id = none →
        t.panesToTheRightBetweenAligningBorders id = none →
        t.panesAboveBetweenAligningBorders id = none →
        t.panesBelowBetweenAligningBorders id = some B →
      (t.closePane id).activeTerminal
        = B.reverse.find?
            (fun pid => ((t.getPane pid).map (fun p => p.selectable)).getD false)) := by
  refine ⟨?_, ?_, ?_, ?_⟩
  · intro B hB
    have hBne : ∀ tid ∈ B, tid ≠ id := by
      intro tid htid heq
      subst heq
      cases hQ : t.paneIdsDirectlyLeftOf tid with
      | none =>
        simp only [Tab.panesToTheLeftBetweenAligningBorders, hget, hQ] at hB
        cases hB
      | some L =>
        simp only [Tab.panesToTheLeftBetweenAligningBorders, hget, hQ] at hB
        by_cases hc : (t.horizontalBorders L).contains target.y
            && (t.horizontalBorders L).contains (target.y + target.rows + 1)
        · rw [if_pos hc] at hB
          have hBL : B = L.filter (fun x =>
              t.paneIsBetweenHorizontalBorders x target.y (target.y + target.rows + 1)) :=
            ((Option.some.injEq _ _).mp hB).symm
          have htidL : tid ∈ L := List.mem_of_mem_filter (hBL ▸ htid)
          obtain ⟨p, hm, hx⟩ := paneIdsDirectlyLeftOf_mem t tid target L hget hQ tid htidL
          have hpt : p = target := mem_getPane_unique t hN tid p target hm hget
          subst hpt
          omega
        · rw [if_neg hc] at hB
          cases hB
    simp only [Tab.closePane, hFs, Bool.false_eq_true, if_false, hget,
      Pane.positionAndSize, hW, hH, hB]
    have hact2 : ((B.foldl (fun acc pid => acc.increasePaneWidthRight pid fw)
        t).removePane id).activeTerminal = some id := by
      have h2 := foldl_tabproj (fun s => s.activeTerminal)
        (fun acc pid => acc.increasePaneWidthRight pid fw) (fun s tid => rfl) B t
      simpa [Tab.removePane, hAct] using h2
    rw [if_pos hact2]
    show ((B.foldl (fun acc pid => acc.increasePaneWidthRight pid fw) t).removePane
        id).nextActivePane B = _
    unfold Tab.nextActivePane
    apply find?_congrP
    intro tid htid
    have hne := hBne tid (List.mem_reverse.mp htid)
    rw [getPane_removePane_ne _ id tid hne]
    rw [getPane_foldl_proj (fun p => p.selectable)
      (fun acc pid => acc.increasePaneWidthRight pid fw) tid
      (fun s tid2 => getPane_updatePane_proj (fun p => p.selectable) s tid2 tid
        (fun p => p.increaseWidthRight fw) (fun p => rfl)) B t]
  · intro B hL0 hB
    have hBne : ∀ tid ∈ B, tid ≠ id := by
      intro tid htid heq
      subst heq
      cases hQ : t.paneIdsDirectlyRightOf tid with
      | none =>
        simp only [Tab.panesToTheRightBetweenAligningBorders, hget, hQ] at hB
        cases hB
      | some L =>
        simp only [Tab.panesToTheRightBetweenAligningBorders, hget, hQ] at hB
        by_cases hc : (t.horizontalBorders L).contains target.y
            && (t.horizontalBorders L).contains (target.y + target.rows + 1)
        · rw [if_pos hc] at hB
          have hBL : B = L.filter (fun x =>
              t.paneIsBetweenHorizontalBorders x target.y (target.y + target.rows + 1)) :=
            ((Option.some.injEq _ _).mp hB).symm
          have htidL : tid ∈ L := List.mem_of_mem_filter (hBL ▸ htid)
          obtain ⟨p, hm, hx⟩ := paneIdsDirectlyRightOf_mem t tid target L hget hQ tid htidL
          have hpt : p = target := mem_getPane_unique t hN tid p target hm hget
          subst hpt
          omega
        · rw [if_neg hc] at hB
          cases hB
    simp only [Tab.closePane, hFs, Bool.false_eq_true, if_false, hget,
      Pane.positionAndSize, hW, hH, hL0, hB]
    have hact2 : ((B.foldl (fun acc pid => acc.increasePaneWidthLeft pid fw)
        t).removePane id).activeTerminal = some id := by
      have h2 := foldl_tabproj (fun s => s.activeTerminal)
        (fun acc pid => acc.increasePaneWidthLeft pid fw) (fun s tid => rfl) B t
      simpa [Tab.removePane, hAct] using h2
    rw [if_pos hact2]
    show ((B.foldl (fun acc pid => acc.increasePaneWidthLeft pid fw) t).removePane
        id).nextActivePane B = _
    unfold Tab.nextActivePane
    apply find?_congrP
    intro tid htid
    have hne := hBne tid (List.mem_reverse.mp htid)
    rw [getPane_removePane_ne _ id tid hne]
    rw [getPane_foldl_proj (fun p => p.selectable)
      (fun acc pid => acc.increasePaneWidthLeft pid fw) tid
      (fun s tid2 => getPane_updatePane_proj (fun p => p.selectable) s tid2 tid
        (fun p => p.increaseWidthLeft fw) (fun p => rfl)) B t]
  · intro B hL0 hR0 hB
    have hBne : ∀ tid ∈ B, tid ≠ id := by
      intro tid htid heq
      subst heq
      cases hQ : t.paneIdsDirectlyAbove tid with
      | none =>
        simp only [Tab.panesAboveBetweenAligningBorders, hget, hQ] at hB
        cases hB
      | some L =>
        simp only [Tab.panesAboveBetweenAligningBorders, hget, hQ] at hB
        by_cases hc : (t.verticalBorders L).contains target.x
            && (t.verticalBorders L).contains (target.x + target.cols + 1)
        · rw [if_pos hc] at hB
          have hBL : B = L.filter (fun x =>
              t.paneIsBetweenVerticalBorders x target.x (target.x + target.cols + 1)) :=
            ((Option.some.injEq _ _).mp hB).symm
          have htidL : tid ∈ L := List.mem_of_mem_filter (hBL ▸ htid)
          obtain ⟨p, hm, hx⟩ := paneIdsDirectlyAbove_mem t tid target L hget hQ tid htidL
          have hpt : p = target := mem_getPane_unique t hN tid p target hm hget
          subst hpt
          omega
        · rw [if_neg hc] at hB
          cases hB
    simp only [Tab.closePane, hFs, Bool.false_eq_true, if_false, hget,
      Pane.positionAndSize, hW, hH, hL0, hR0, hB]
    have hact2 : ((B.foldl (fun acc pid => acc.increasePaneHeightDown pid fh)
        t).removePane id).activeTerminal = some id := by
      have h2 := foldl_tabproj (fun s => s.activeTerminal)
        (fun acc pid => acc.increasePaneHeightDown pid fh) (fun s tid => rfl) B t
      simpa [Tab.removePane, hAct] using h2
    rw [if_pos hact2]
    show ((B.foldl (fun acc pid => acc.increasePaneHeightDown pid fh) t).removePane
        id).nextActivePane B = _
    unfold Tab.nextActivePane
    apply find?_congrP
    intro tid htid
    have hne := hBne tid (List.mem_reverse.mp htid)
    rw [getPane_removePane_ne _ id tid hne]
    rw [getPane_foldl_proj (fun p => p.selectable)
      (fun acc pid => acc.increasePaneHeightDown pid fh) tid
      (fun s tid2 => getPane_updatePane_proj (fun p => p.selectable) s tid2 tid
        (fun p => p.increaseHeightDown fh) (fun p => rfl)) B t]
  · intro B hL0 hR0 hA0 hB
    have hBne : ∀ tid ∈ B, tid ≠ id := by
      intro tid htid heq
      subst heq
      cases hQ : t.paneIdsDirectlyBelow tid with
      | none =>
        simp only [Tab.panesBelowBetweenAligningBorders, hget, hQ] at hB
        cases hB
      | some L =>
        simp only [Tab.panesBelowBetweenAligningBorders, hget, hQ] at hB
        by_cases hc : (t.verticalBorders L).contains target.x
            && (t.verticalBorders L).contains (target.x + target.cols + 1)
        · rw [if_pos hc] at hB
          have hBL : B = L.filter (fun x =>
              t.paneIsBetweenVerticalBorders x target.x (target.x + target.cols + 1)) :=
            ((Option.some.injEq _ _).mp hB).symm
          have htidL : tid ∈ L := List.mem_of_mem_filter (hBL ▸ htid)
          obtain ⟨p, hm, hx⟩ := paneIdsDirectlyBelow_mem t tid target L hget hQ tid htidL
          have hpt : p = target := mem_getPane_unique t hN tid p target hm hget
          subst hpt
          omega
        · rw [if_neg hc] at hB
          cases hB
    simp only [Tab.closePane, hFs, Bool.false_eq_true, if_false, hget,
      Pane.positionAndSize, hW, hH, hL0, hR0, hA0, hB]
    have hact2 : ((B.foldl (fun acc pid => acc.increasePaneHeightUp pid fh)
        t).removePane id).activeTerminal = some id := by
      have h2 := foldl_tabproj (fun s => s.activeTerminal)
        (fun acc pid => acc.increasePaneHeightUp pid fh) (fun s tid => rfl) B t
      simpa [Tab.removePane, hAct] using h2
    rw [if_pos hact2]
    show ((B.foldl (fun acc pid => acc.increasePaneHeightUp pid fh) t).removePane
        id).nextActivePane B = _
    unfold Tab.nextActivePane
    apply find?_congrP
    intro tid htid
    have hne := hBne tid (List.mem_reverse.mp htid)
    rw [getPane_removePane_ne _ id tid hne]
    rw [getPane_foldl_proj (fun p => p.selectable)
      (fun acc pid => acc.increasePaneHeightUp pid fh) tid
      (fun s tid2 => getPane_updatePane_proj (fun p => p.selectable) s tid2 tid
        (fun p => p.increaseHeightUp fh) (fun p => rfl)) B t]

/-- A non-selectable pane forming the left band of the pane being closed. -/
def paneBandLeft : Pane := ⟨PaneId.Terminal 1, ⟨0, 0, pctDim 50 10, pctDim 50 10⟩, none, false⟩
/-- The active pane about to be closed. -/
def paneBandActive : Pane := ⟨PaneId.Terminal 2, ⟨10, 0, pctDim 50 10, pctDim 50 10⟩, none, true⟩
/-- A selectable pane outside the reclaiming band. -/
def paneElsewhere : Pane := ⟨PaneId.Terminal 3, ⟨0, 10, pctDim 50 10, pctDim 100 20⟩, none, true⟩

/-- Closing Terminal 2 reclaims into the left band [Terminal 1]
(non-selectable) while selectable Terminal 3 sits below. -/
def tabBandClose : Tab :=
  { panes := [(PaneId.Terminal 1, paneBandLeft), (PaneId.Terminal 2, paneBandActive),
              (PaneId.Terminal 3, paneElsewhere)],
    panesToHide := [], activeTerminal := some (PaneId.Terminal 2),
    viewport := ⟨0, 0, 20, 20⟩, fullscreenIsActive := false, maxPanes := none }

/-- Witness for C10: the band has no selectable pane, so the active pane
becomes None although a selectable pane remains elsewhere in the tab. -/
theorem c10_witness :
    (tabBandClose.closePane (PaneId.Terminal 2)).activeTerminal = none
    ∧ (PaneId.Terminal 3, paneElsewhere) ∈ tabBandClose.panes
    ∧ paneElsewhere.selectable = true :=
  ⟨((c10_close_pane_next_active_from_band tabBandClose (PaneId.Terminal 2) paneBandActive
      (by decide) rfl (by decide) (by decide) (by decide) 50 50 rfl rfl rfl).1
      [PaneId.Terminal 1] (by decide)).trans (by decide),
   by decide, rfl⟩

/-! Claim C2. -/

/-- Elements produced by the chain-building fold come from the accumulator or
the input list. -/
lemma mem_foldl_chain {α : Type} (adj : α → α → Bool) (x : α) (tgt : α)
    (l : List α) (init : List α)
    (h : x ∈ l.foldl (fun acc p => if adj p (acc.getLast?.getD tgt) then acc ++ [p] else acc) init) :
    x ∈ init ∨ x ∈ l := by
  induction l generalizing init with
  | nil => exact Or.inl h
  | cons a as ih =>
    rw [List.foldl_cons] at h
    by_cases hc : adj a (init.getLast?.getD tgt)
    · rw [if_pos hc] at h
      rcases ih (init ++ [a]) h with hi | hi
      · rcases List.mem_append.mp hi with hi2 | hi2
        · exact Or.inl hi2
        · exact Or.inr (List.mem_cons.mpr (Or.inl (List.mem_singleton.mp hi2)))
      · exact Or.inr (List.mem_cons_of_mem a hi)
    · rw [if_neg hc] at h
      rcases ih init h with hi | hi
      · exact Or.inl hi
      · exact Or.inr (List.mem_cons_of_mem a hi)

/-- The contiguous chain only contains panes of the sorted aligned list. -/
lemma mem_contiguousChain (target : Pane) (adj : Pane → Pane → Bool)
    (sorted : List Pane) (x : Pane) (h : x ∈ contiguousChain target adj sorted) :
    x ∈ sorted := by
  rcases mem_foldl_chain adj x target sorted [] h with hi | hi
  · cases hi
  · exact hi

/-- Sorting preserves membership. -/
lemma mem_sortBy (le : α → α → Bool) (l : List α) (x : α) :
    x ∈ sortBy le l ↔ x ∈ l := (sortBy_perm le l).mem_iff

/-- An id of a trimmed chain is the pid of some pane of the aligned list. -/
lemma mem_chain_pid (target : Pane) (adj le : Pane → Pane → Bool)
    (aligned : List Pane) (f : Pane → Bool) (tid : PaneId)
    (h : tid ∈ ((contiguousChain target adj (sortBy le aligned)).filter f).map
      (fun p => p.pid)) :
    ∃ x ∈ aligned, x.pid = tid := by
  simp only [List.mem_map] at h
  obtain ⟨x, hx, rfl⟩ := h
  have h1 := List.mem_of_mem_filter hx
  have h2 := mem_contiguousChain target adj _ x h1
  exact ⟨x, (mem_sortBy le aligned x).mp h2, rfl⟩

/-- Right-aligned panes never carry the target pid. -/
lemma mem_rightAligned_pid_ne (t : Tab) (pane x : Pane)
    (h : x ∈ t.panesRightAlignedWithPane pane) : x.pid ≠ pane.pid := by
  have := (List.mem_filter.mp h).2
  simp only [Bool.and_eq_true, decide_eq_true_eq] at this
  exact this.1

/-- Left-aligned panes never carry the target pid. -/
lemma mem_leftAligned_pid_ne (t : Tab) (pane x : Pane)
    (h : x ∈ t.panesLeftAlignedWithPane pane) : x.pid ≠ pane.pid := by
  have := (List.mem_filter.mp h).2
  simp only [Bool.and_eq_true, decide_eq_true_eq] at this
  exact this.1

/-- Top-aligned panes never carry the target pid. -/
lemma mem_topAligned_pid_ne (t : Tab) (pane x : Pane)
    (h : x ∈ t.panesTopAlignedWithPane pane) : x.pid ≠ pane.pid := by
  have := (List.mem_filter.mp h).2
  simp only [Bool.and_eq_true, decide_eq_true_eq] at this
  exact this.1

/-- Bottom-aligned panes never carry the target pid. -/
lemma mem_bottomAligned_pid_ne (t : Tab) (pane x : Pane)
    (h : x ∈ t.panesBottomAlignedWithPane pane) : x.pid ≠ pane.pid := by
  have := (List.mem_filter.mp h).2
  simp only [Bool.and_eq_true, decide_eq_true_eq] at this
  exact this.1

/-- A fold of key-wise updates away from A leaves getPane at A alone. -/
lemma getPane_foldl_ne (A : PaneId) (step : Tab → PaneId → Tab)
    (hstep : ∀ s tid, tid ≠ A → (step s tid).getPane A = s.getPane A)
    (l : List PaneId) (hl : ∀ tid ∈ l, tid ≠ A) (t : Tab) :
    (l.foldl step t).getPane A = t.getPane A := by
  induction l generalizing t with
  | nil => rfl
  | cons a as ih =>
    rw [List.foldl_cons, ih (fun tid htid => hl tid (List.mem_cons_of_mem a htid)),
      hstep t a (hl a (List.mem_cons_self a as))]

/-- A successful getPane comes from a map entry. -/
lemma getPane_mem (t : Tab) (id : PaneId) (p : Pane) (h : t.getPane id = some p) :
    (id, p) ∈ t.panes := by
  unfold Tab.getPane at h
  cases hf : t.panes.find? (fun kp => decide (kp.1 = id)) with
  | none => rw [hf] at h; cases h
  | some kp =>
    rw [hf] at h
    simp only [Option.map_some', Option.some.injEq] at h
    have h1 := List.mem_of_find?_eq_some hf
    have h2 := List.find?_some hf
    simp only [decide_eq_true_eq] at h2
    rw [← h, ← h2]
    exact h1

/-- The above band of a right-aligned cascade never names the target id. -/
lemma band_rightAlignedAbove_ne (t : Tab) (A : PaneId) (pa : Pane) (borders : List Nat)
    (hget : t.getPane A = some pa) (hPidA : pa.pid = A) (tid : PaneId)
    (h : tid ∈ (t.rightAlignedContiguousPanesAbove A borders).2) : tid ≠ A := by
  simp only [Tab.rightAlignedContiguousPanesAbove, hget] at h
  obtain ⟨x, hx, hpid⟩ := mem_chain_pid pa _ _ _ _ tid h
  intro he
  exact mem_rightAligned_pid_ne t pa x hx (by rw [hpid, he, hPidA])

/-- The below band of a right-aligned cascade never names the target id. -/
lemma band_rightAlignedBelow_ne (t : Tab) (A : PaneId) (pa : Pane) (borders : List Nat)
    (hget : t.getPane A = some pa) (hPidA : pa.pid = A) (tid : PaneId)
    (h : tid ∈ (t.rightAlignedContiguousPanesBelow A borders).2) : tid ≠ A := by
  simp only [Tab.rightAlignedContiguousPanesBelow, hget] at h
  obtain ⟨x, hx, hpid⟩ := mem_chain_pid pa _ _ _ _ tid h
  intro he
  exact mem_rightAligned_pid_ne t pa x hx (by rw [hpid, he, hPidA])

/-- The above band of a left-aligned cascade never names the target id. -/
lemma band_leftAlignedAbove_ne (t : Tab) (A : PaneId) (pa : Pane) (borders : List Nat)
    (hget : t.getPane A = some pa) (hPidA : pa.pid = A) (tid : PaneId)
    (h : tid ∈ (t.leftAlignedContiguousPanesAbove A borders).2) : tid ≠ A := by
  simp only [Tab.leftAlignedContiguousPanesAbove, hget] at h
  obtain ⟨x, hx, hpid⟩ := mem_chain_pid pa _ _ _ _ tid h
  intro he
  exact mem_leftAligned_pid_ne t pa x hx (by rw [hpid, he, hPidA])

/-- The below band of a left-aligned cascade never names the target id. -/
lemma band_leftAlignedBelow_ne (t : Tab) (A : PaneId) (pa : Pane) (borders : List Nat)
    (hget : t.getPane A = some pa) (hPidA : pa.pid = A) (tid : PaneId)
    (h : tid ∈ (t.leftAlignedContiguousPanesBelow A borders).2) : tid ≠ A := by
  simp only [Tab.leftAlignedContiguousPanesBelow, hget] at h
  obtain ⟨x, hx, hpid⟩ := mem_chain_pid pa _ _ _ _ tid h
  intro he
  exact mem_leftAligned_pid_ne t pa x hx (by rw [hpid, he, hPidA])

/-- The left band of a top-aligned cascade never names the target id. -/
lemma band_topAlignedLeft_ne (t : Tab) (A : PaneId) (pa : Pane) (borders : List Nat)
    (hget : t.getPane A = some pa) (hPidA : pa.pid = A) (tid : PaneId)
    (h : tid ∈ (t.topAlignedContiguousPanesToTheLeft A borders).2) : tid ≠ A := by
  simp only [Tab.topAlignedContiguousPanesToTheLeft, hget] at h
  obtain ⟨x, hx, hpid⟩ := mem_chain_pid pa _ _ _ _ tid h
  intro he
  exact mem_topAligned_pid_ne t pa x hx (by rw [hpid, he, hPidA])

/-- The right band of a top-aligned cascade never names the target id. -/
lemma band_topAlignedRight_ne (t : Tab) (A : PaneId) (pa : Pane) (borders : List Nat)
    (hget : t.getPane A = some pa) (hPidA : pa.pid = A) (tid : PaneId)
    (h : tid ∈ (t.topAlignedContiguousPanesToTheRight A borders).2) : tid ≠ A := by
  simp only [Tab.topAlignedContiguousPanesToTheRight, hget] at h
  obtain ⟨x, hx, hpid⟩ := mem_chain_pid pa _ _ _ _ tid h
  intro he
  exact mem_topAligned_pid_ne t pa x hx (by rw [hpid, he, hPidA])

/-- The left band of a bottom-aligned cascade never names the target id. -/
lemma band_bottomAlignedLeft_ne (t : Tab) (A : PaneId) (pa : Pane) (borders : List Nat)
    (hget : t.getPane A = some pa) (hPidA : pa.pid = A) (tid : PaneId)
    (h : tid ∈ (t.bottomAlignedContiguousPanesToTheLeft A borders).2) : tid ≠ A := by
  simp only [Tab.bottomAlignedContiguousPanesToTheLeft, hget] at h
  obtain ⟨x, hx, hpid⟩ := mem_chain_pid pa _ _ _ _ tid h
  intro he
  exact mem_bottomAligned_pid_ne t pa x hx (by rw [hpid, he, hPidA])

/-- The right band of a bottom-aligned cascade never names the target id. -/
lemma band_bottomAlignedRight_ne (t : Tab) (A : PaneId) (pa : Pane) (borders : List Nat)
    (hget : t.getPane A = some pa) (hPidA : pa.pid = A) (tid : PaneId)
    (h : tid ∈ (t.bottomAlignedContiguousPanesToTheRight A borders).2) : tid ≠ A := by
  simp only [Tab.bottomAlignedContiguousPanesToTheRight, hget] at h
  obtain ⟨x, hx, hpid⟩ := mem_chain_pid pa _ _ _ _ tid h
  intro he
  exact mem_bottomAligned_pid_ne t pa x hx (by rw [hpid, he, hPidA])

/-- C2 (amended): for each direction, resize_<dir> grows the active pane by
3.5 percent exactly when the corresponding can_increase guard holds (some pane
directly on that side, all of them Percent with value - 3.5 >= 3.5); otherwise,
when the can_reduce guard holds (active pane's axis Percent with
value - 3.5 >= 3.5 and a pane on the opposite side), it runs the shrink
cascade, which shrinks the active pane by 3.5 percent unless a side-band pane
fails the minimum check, in which case - and also when neither guard holds -
the tab is left completely unchanged.  The claim's pure iff (shrink happens
whenever can_reduce holds) is refuted by `c2_counterexample`. -/
theorem c2_resize_dispatch (t : Tab) (A : PaneId) (pa : Pane)
    (hN : (t.panes.map (fun kp => kp.1)).Nodup)
    (hPid : ∀ kp ∈ t.panes, kp.2.pid = kp.1)
    (hPos : ∀ kp ∈ t.panes, 0 < kp.2.cols ∧ 0 < kp.2.rows)
    (hAct : t.activeTerminal = some A)
    (hget : t.getPane A = some pa) :
    ((t.canIncreasePaneAndSurroundingsRight A resizePercent = true →
        ∀ p, pa.geom.cols.constraint = Constraint.Percent p →
        ((t.resizeRight).getPane A).map (fun q => q.geom.cols.constraint)
          = some (Constraint.Percent (p + resizePercent)))
      ∧ (t.canIncreasePaneAndSurroundingsRight A resizePercent = false →
          t.canReducePaneAndSurroundingsRight A resizePercent = true →
          ∀ L, t.paneIdsDirectlyLeftOf A = some L →
          (((t.leftAlignedContiguousPanesAbove A
          (L.map (fun b => ((t.getPane b).map (fun p => p.y)).getD 0))).2
        ++ (t.leftAlignedContiguousPanesBelow A
          (L.map (fun b => ((t.getPane b).map (fun p => p.y)).getD 0))).2).any
        (t.sideBandColsBelowMin resizePercent)) = false →
          ∀ p, pa.geom.cols.constraint = Constraint.Percent p →
          ((t.resizeRight).getPane A).map (fun q => q.geom.cols.constraint)
            = some (Constraint.Percent (p - resizePercent)))
      ∧ (t.canIncreasePaneAndSurroundingsRight A resizePercent = false →
          t.canReducePaneAndSurroundingsRight A resizePercent = true →
          ∀ L, t.paneIdsDirectlyLeftOf A = some L →
          (((t.leftAlignedContiguousPanesAbove A
          (L.map (fun b => ((t.getPane b).map (fun p => p.y)).getD 0))).2
        ++ (t.leftAlignedContiguousPanesBelow A
          (L.map (fun b => ((t.getPane b).map (fun p => p.y)).getD 0))).2).any
        (t.sideBandColsBelowMin resizePercent)) = true →
          t.resizeRight = t)
      ∧ (t.canIncreasePaneAndSurroundingsRight A resizePercent = false →
          t.canReducePaneAndSurroundingsRight A resizePercent = false →
          t.resizeRight = t))
    ∧ ((t.canIncreasePaneAndSurroundingsLeft A resizePercent = true →
        ∀ p, pa.geom.cols.constraint = Constraint.Percent p →
        ((t.resizeLeft).getPane A).map (fun q => q.geom.cols.constraint)
          = some (Constraint.Percent (p + resizePercent)))
      ∧ (t.canIncreasePaneAndSurroundingsLeft A resizePercent = false →
          t.canReducePaneAndSurroundingsLeft A resizePercent = true →
          ∀ L, t.paneIdsDirectlyRightOf A = some L →
          (((t.rightAlignedContiguousPanesAbove A
          (L.map (fun b => ((t.getPane b).map (fun p => p.y)).getD 0))).2
        ++ (t.rightAlignedContiguousPanesBelow A
          (L.map (fun b => ((t.getPane b).map (fun p => p.y)).getD 0))).2).any
        (t.sideBandColsBelowMin resizePercent)) = false →
          ∀ p, pa.geom.cols.constraint = Constraint.Percent p →
          ((t.resizeLeft).getPane A).map (fun q => q.geom.cols.constraint)
            = some (Constraint.Percent (p - resizePercent)))
      ∧ (t.canIncreasePaneAndSurroundingsLeft A resizePercent = false →
          t.canReducePaneAndSurroundingsLeft A resizePercent = true →
          ∀ L, t.paneIdsDirectlyRightOf A = some L →
          (((t.rightAlignedContiguousPanesAbove A
          (L.map (fun b => ((t.getPane b).map (fun p => p.y)).getD 0))).2
        ++ (t.rightAlignedContiguousPanesBelow A
          (L.map (fun b => ((t.getPane b).map (fun p => p.y)).getD 0))).2).any
        (t.sideBandColsBelowMin resizePercent)) = true →
          t.resizeLeft = t)
      ∧ (t.canIncreasePaneAndSurroundingsLeft A resizePercent = false →
          t.canReducePaneAndSurroundingsLeft A resizePercent = false →
          t.resizeLeft = t))
    ∧ ((t.canIncreasePaneAndSurroundingsDown A resizePercent = true →
        ∀ p, pa.geom.rows.constraint = Constraint.Percent p →
        ((t.resizeDown).getPane A).map (fun q => q.geom.rows.constraint)
          = some (Constraint.Percent (p + resizePercent)))
      ∧ (t.canIncreasePaneAndSurroundingsDown A resizePercent = false →
          t.canReducePaneAndSurroundingsDown A resizePercent = true →
          ∀ L, t.paneIdsDirectlyAbove A = some L →
          (((t.topAlignedContiguousPanesToTheLeft A
          (L.map (fun b => ((t.getPane b).map (fun p => p.x)).getD 0))).2
        ++ (t.topAlignedContiguousPanesToTheRight A
          (L.map (fun b => ((t.getPane b).map (fun p => p.x)).getD 0))).2).any
        (t.sideBandRowsBelowMin resizePercent)) = false →
          ∀ p, pa.geom.rows.constraint = Constraint.Percent p →
          ((t.resizeDown).getPane A).map (fun q => q.geom.rows.constraint)
            = some (Constraint.Percent (p - resizePercent)))
      ∧ (t.canIncreasePaneAndSurroundingsDown A resizePercent = false →
          t.canReducePaneAndSurroundingsDown A resizePercent = true →
          ∀ L, t.paneIdsDirectlyAbove A = some L →
          (((t.topAlignedContiguousPanesToTheLeft A
          (L.map (fun b => ((t.getPane b).map (fun p => p.x)).getD 0))).2
        ++ (t.topAlignedContiguousPanesToTheRight A
          (L.map (fun b => ((t.getPane b).map (fun p => p.x)).getD 0))).2).any
        (t.sideBandRowsBelowMin resizePercent)) = true →
          t.resizeDown = t)
      ∧ (t.canIncreasePaneAndSurroundingsDown A resizePercent = false →
          t.canReducePaneAndSurroundingsDown A resizePercent = false →
          t.resizeDown = t))
    ∧ ((t.canIncreasePaneAndSurroundingsUp A resizePercent = true →
        ∀ p, pa.geom.rows.constraint = Constraint.Percent p →
        ((t.resizeUp).getPane A).map (fun q => q.geom.rows.constraint)
          = some (Constraint.Percent (p + resizePercent)))
      ∧ (t.canIncreasePaneAndSurroundingsUp A resizePercent = false →
          t.canReducePaneAndSurroundingsUp A resizePercent = true →
          ∀ L, t.paneIdsDirectlyBelow A = some L →
          (((t.bottomAlignedContiguousPanesToTheLeft A
          (L.map (fun b => ((t.getPane b).map (fun p => p.x)).getD 0))).2
        ++ (t.bottomAlignedContiguousPanesToTheRight A
          (L.map (fun b => ((t.getPane b).map (fun p => p.x)).getD 0))).2).any
        (t.sideBandRowsBelowMin resizePercent)) = false →
          ∀ p, pa.geom.rows.constraint = Constraint.Percent p →
          ((t.resizeUp).getPane A).map (fun q => q.geom.rows.constraint)
            = some (Constraint.Percent (p - resizePercent)))
      ∧ (t.canIncreasePaneAndSurroundingsUp A resizePercent = false →
          t.canReducePaneAndSurroundingsUp A resizePercent = true →
          ∀ L, t.paneIdsDirectlyBelow A = some L →
          (((t.bottomAlignedContiguousPanesToTheLeft A
          (L.map (fun b => ((t.getPane b).map (fun p => p.x)).getD 0))).2
        ++ (t.bottomAlignedContiguousPanesToTheRight A
          (L.map (fun b => ((t.getPane b).map (fun p => p.x)).getD 0))).2).any
        (t.sideBandRowsBelowMin resizePercent)) = true →
          t.resizeUp = t)
      ∧ (t.canIncreasePaneAndSurroundingsUp A resizePercent = false →
          t.canReducePaneAndSurroundingsUp A resizePercent = false →
          t.resizeUp = t)) := by
  have hPidA : pa.pid = A := hPid (A, pa) (getPane_mem t A pa hget)
  have hposA : 0 < pa.cols := (hPos (A, pa) (getPane_mem t A pa hget)).1
  have hposAr : 0 < pa.rows := (hPos (A, pa) (getPane_mem t A pa hget)).2
  refine ⟨⟨?_, ?_, ?_, ?_⟩, ⟨?_, ?_, ?_, ?_⟩, ⟨?_, ?_, ?_, ?_⟩, ⟨?_, ?_, ?_, ?_⟩⟩
  · intro hInc p hp
    obtain ⟨R, hQ⟩ : ∃ R, t.paneIdsDirectlyRightOf A = some R := by
      cases hq2 : t.paneIdsDirectlyRightOf A with
      | none =>
        unfold Tab.canIncreasePaneAndSurroundingsRight at hInc
        rw [hq2] at hInc
        cases hInc
      | some R => exact ⟨R, rfl⟩
    simp only [Tab.resizeRight, Tab.getActivePaneId, hAct, hInc, if_true,
      Tab.resizeWholeTab, Tab.renderTab]
    simp only [Tab.increasePaneAndSurroundingsRight, hQ, Option.getD_some,
      Tab.increasePaneWidthRight, Tab.reducePaneWidthRight]
    rw [getPane_foldl_ne A _
      (fun s tid htid => getPane_updatePane_ne s tid A _ (fun e => htid e.symm)) _
      (fun tid htid => by
        rcases List.mem_append.mp htid with hh | hh
        · exact band_rightAlignedAbove_ne t A pa _ hget hPidA tid hh
        · exact band_rightAlignedBelow_ne t A pa _ hget hPidA tid hh)]
    rw [getPane_foldl_ne A _
      (fun s tid htid => getPane_updatePane_ne s tid A _ (fun e => htid e.symm)) _
      (fun tid htid heq => by
        subst heq
        have h1 := List.mem_of_mem_filter htid
        obtain ⟨q, hm, hx⟩ := paneIdsDirectlyRightOf_mem t tid pa R hget hQ tid h1
        have hqpa : q = pa := mem_getPane_unique t hN tid q pa hm hget
        subst hqpa
        omega)]
    rw [getPane_updatePane_self, hget]
    simp [Pane.increaseWidthRight, Dimension.adjustPercent, hp]
  · intro hInc hRed L hQ hOK p hp
    simp only [Tab.resizeRight, Tab.getActivePaneId, hAct, hInc, hRed,
      Bool.false_eq_true, if_false, if_true, Tab.resizeWholeTab, Tab.renderTab]
    simp only [Tab.reducePaneAndSurroundingsRight, hQ, hOK, Bool.false_eq_true, if_false,
      Option.getD_some, Tab.reducePaneWidthRight, Tab.increasePaneWidthRight]
    rw [getPane_foldl_ne A _
      (fun s tid htid => getPane_updatePane_ne s tid A _ (fun e => htid e.symm)) _
      (fun tid htid => by
        rcases List.mem_append.mp htid with hh | hh
        · exact band_leftAlignedAbove_ne t A pa _ hget hPidA tid hh
        · exact band_leftAlignedBelow_ne t A pa _ hget hPidA tid hh)]
    rw [getPane_foldl_ne A _
      (fun s tid htid => getPane_updatePane_ne s tid A _ (fun e => htid e.symm)) _
      (fun tid htid heq => by
        subst heq
        have h1 := List.mem_of_mem_filter htid
        obtain ⟨q, hm, hx⟩ := paneIdsDirectlyLeftOf_mem t tid pa L hget hQ tid h1
        have hqpa : q = pa := mem_getPane_unique t hN tid q pa hm hget
        subst hqpa
        omega)]
    rw [getPane_updatePane_self, hget]
    simp [Pane.reduceWidthRight, Dimension.adjustPercent, hp, sub_eq_add_neg]
  · intro hInc hRed L hQ hBad
    simp only [Tab.resizeRight, Tab.getActivePaneId, hAct, hInc, hRed,
      Bool.false_eq_true, if_false, if_true, Tab.resizeWholeTab, Tab.renderTab]
    simp only [Tab.reducePaneAndSurroundingsRight, hQ, hBad, if_true, Option.getD_some]
  · intro hInc hRed
    simp only [Tab.resizeRight, Tab.getActivePaneId, hAct, hInc, hRed,
      Bool.false_eq_true, if_false, Tab.resizeWholeTab, Tab.renderTab]
  · intro hInc p hp
    obtain ⟨R, hQ⟩ : ∃ R, t.paneIdsDirectlyLeftOf A = some R := by
      cases hq2 : t.paneIdsDirectlyLeftOf A with
      | none =>
        unfold Tab.canIncreasePaneAndSurroundingsLeft at hInc
        rw [hq2] at hInc
        cases hInc
      | some R => exact ⟨R, rfl⟩
    simp only [Tab.resizeLeft, Tab.getActivePaneId, hAct, hInc, if_true,
      Tab.resizeWholeTab, Tab.renderTab]
    simp only [Tab.increasePaneAndSurroundingsLeft, hQ, Option.getD_some,
      Tab.increasePaneWidthLeft, Tab.reducePaneWidthLeft]
    rw [getPane_foldl_ne A _
      (fun s tid htid => getPane_updatePane_ne s tid A _ (fun e => htid e.symm)) _
      (fun tid htid => by
        rcases List.mem_append.mp htid with hh | hh
        · exact band_leftAlignedAbove_ne t A pa _ hget hPidA tid hh
        · exact band_leftAlignedBelow_ne t A pa _ hget hPidA tid hh)]
    rw [getPane_foldl_ne A _
      (fun s tid htid => getPane_updatePane_ne s tid A _ (fun e => htid e.symm)) _
      (fun tid htid heq => by
        subst heq
        have h1 := List.mem_of_mem_filter htid
        obtain ⟨q, hm, hx⟩ := paneIdsDirectlyLeftOf_mem t tid pa R hget hQ tid h1
        have hqpa : q = pa := mem_getPane_unique t hN tid q pa hm hget
        subst hqpa
        omega)]
    rw [getPane_updatePane_self, hget]
    simp [Pane.increaseWidthLeft, Dimension.adjustPercent, hp]
  · intro hInc hRed L hQ hOK p hp
    simp only [Tab.resizeLeft, Tab.getActivePaneId, hAct, hInc, hRed,
      Bool.false_eq_true, if_false, if_true, Tab.resizeWholeTab, Tab.renderTab]
    simp only [Tab.reducePaneAndSurroundingsLeft, hQ, hOK, Bool.false_eq_true, if_false,
      Option.getD_some, Tab.reducePaneWidthLeft, Tab.increasePaneWidthLeft]
    rw [getPane_foldl_ne A _
      (fun s tid htid => getPane_updatePane_ne s tid A _ (fun e => htid e.symm)) _
      (fun tid htid => by
        rcases List.mem_append.mp htid with hh | hh
        · exact band_rightAlignedAbove_ne t A pa _ hget hPidA tid hh
        · exact band_rightAlignedBelow_ne t A pa _ hget hPidA tid hh)]
    rw [getPane_foldl_ne A _
      (fun s tid htid => getPane_updatePane_ne s tid A _ (fun e => htid e.symm)) _
      (fun tid htid heq => by
        subst heq
        have h1 := List.mem_of_mem_filter htid
        obtain ⟨q, hm, hx⟩ := paneIdsDirectlyRightOf_mem t tid pa L hget hQ tid h1
        have hqpa : q = pa := mem_getPane_unique t hN tid q pa hm hget
        subst hqpa
        omega)]
    rw [getPane_updatePane_self, hget]
    simp [Pane.reduceWidthLeft, Dimension.adjustPercent, hp, sub_eq_add_neg]
  · intro hInc hRed L hQ hBad
    simp only [Tab.resizeLeft, Tab.getActivePaneId, hAct, hInc, hRed,
      Bool.false_eq_true, if_false, if_true, Tab.resizeWholeTab, Tab.renderTab]
    simp only [Tab.reducePaneAndSurroundingsLeft, hQ, hBad, if_true, Option.getD_some]
  · intro hInc hRed
    simp only [Tab.resizeLeft, Tab.getActivePaneId, hAct, hInc, hRed,
      Bool.false_eq_true, if_false, Tab.resizeWholeTab, Tab.renderTab]
  · intro hInc p hp
    obtain ⟨R, hQ⟩ : ∃ R, t.paneIdsDirectlyBelow A = some R := by
      cases hq2 : t.paneIdsDirectlyBelow A with
      | none =>
        unfold Tab.canIncreasePaneAndSurroundingsDown at hInc
        rw [hq2] at hInc
        cases hInc
      | some R => exact ⟨R, rfl⟩
    simp only [Tab.resizeDown, Tab.getActivePaneId, hAct, hInc, if_true,
      Tab.resizeWholeTab, Tab.renderTab]
    simp only [Tab.increasePaneAndSurroundingsDown, hQ, Option.getD_some,
      Tab.increasePaneHeightDown, Tab.reducePaneHeightDown]
    rw [getPane_foldl_ne A _
      (fun s tid htid => getPane_updatePane_ne s tid A _ (fun e => htid e.symm)) _
      (fun tid htid => by
        rcases List.mem_append.mp htid with hh | hh
        · exact band_bottomAlignedLeft_ne t A pa _ hget hPidA tid hh
        · exact band_bottomAlignedRight_ne t A pa _ hget hPidA tid hh)]
    rw [getPane_foldl_ne A _
      (fun s tid htid => getPane_updatePane_ne s tid A _ (fun e => htid e.symm)) _
      (fun tid htid heq => by
        subst heq
        have h1 := List.mem_of_mem_filter htid
        obtain ⟨q, hm, hx⟩ := paneIdsDirectlyBelow_mem t tid pa R hget hQ tid h1
        have hqpa : q = pa := mem_getPane_unique t hN tid q pa hm hget
        subst hqpa
        omega)]
    rw [getPane_updatePane_self, hget]
    simp [Pane.increaseHeightDown, Dimension.adjustPercent, hp]
  · intro hInc hRed L hQ hOK p hp
    simp only [Tab.resizeDown, Tab.getActivePaneId, hAct, hInc, hRed,
      Bool.false_eq_true, if_false, if_true, Tab.resizeWholeTab, Tab.renderTab]
    simp only [Tab.reducePaneAndSurroundingsDown, hQ, hOK, Bool.false_eq_true, if_false,
      Option.getD_some, Tab.reducePaneHeightDown, Tab.increasePaneHeightDown]
    rw [getPane_foldl_ne A _
      (fun s tid htid => getPane_updatePane_ne s tid A _ (fun e => htid e.symm)) _
      (fun tid htid => by
        rcases List.mem_append.mp htid with hh | hh
        · exact band_topAlignedLeft_ne t A pa _ hget hPidA tid hh
        · exact band_topAlignedRight_ne t A pa _ hget hPidA tid hh)]
    rw [getPane_foldl_ne A _
      (fun s tid htid => getPane_updatePane_ne s tid A _ (fun e => htid e.symm)) _
      (fun tid htid heq => by
        subst heq
        have h1 := List.mem_of_mem_filter htid
        obtain ⟨q, hm, hx⟩ := paneIdsDirectlyAbove_mem t tid pa L hget hQ tid h1
        have hqpa : q = pa := mem_getPane_unique t hN tid q pa hm hget
        subst hqpa
        omega)]
    rw [getPane_updatePane_self, hget]
    simp [Pane.reduceHeightDown, Dimension.adjustPercent, hp, sub_eq_add_neg]
  · intro hInc hRed L hQ hBad
    simp only [Tab.resizeDown, Tab.getActivePaneId, hAct, hInc, hRed,
      Bool.false_eq_true, if_false, if_true, Tab.resizeWholeTab, Tab.renderTab]
    simp only [Tab.reducePaneAndSurroundingsDown, hQ, hBad, if_true, Option.getD_some]
  · intro hInc hRed
    simp only [Tab.resizeDown, Tab.getActivePaneId, hAct, hInc, hRed,
      Bool.false_eq_true, if_false, Tab.resizeWholeTab, Tab.renderTab]
  · intro hInc p hp
    obtain ⟨R, hQ⟩ : ∃ R, t.paneIdsDirectlyAbove A = some R := by
      cases hq2 : t.paneIdsDirectlyAbove A with
      | none =>
        unfold Tab.canIncreasePaneAndSurroundingsUp at hInc
        rw [hq2] at hInc
        cases hInc
      | some R => exact ⟨R, rfl⟩
    simp only [Tab.resizeUp, Tab.getActivePaneId, hAct, hInc, if_true,
      Tab.resizeWholeTab, Tab.renderTab]
    simp only [Tab.increasePaneAndSurroundingsUp, hQ, Option.getD_some,
      Tab.increasePaneHeightUp, Tab.reducePaneHeightUp]
    rw [getPane_foldl_ne A _
      (fun s tid htid => getPane_updatePane_ne s tid A _ (fun e => htid e.symm)) _
      (fun tid htid => by
        rcases List.mem_append.mp htid with hh | hh
        · exact band_topAlignedLeft_ne t A pa _ hget hPidA tid hh
        · exact band_topAlignedRight_ne t A pa _ hget hPidA tid hh)]
    rw [getPane_foldl_ne A _
      (fun s tid htid => getPane_updatePane_ne s tid A _ (fun e => htid e.symm)) _
      (fun tid htid heq => by
        subst heq
        have h1 := List.mem_of_mem_filter htid
        obtain ⟨q, hm, hx⟩ := paneIdsDirectlyAbove_mem t tid pa R hget hQ tid h1
        have hqpa : q = pa := mem_getPane_unique t hN tid q pa hm hget
        subst hqpa
        omega)]
    rw [getPane_updatePane_self, hget]
    simp [Pane.increaseHeightUp, Dimension.adjustPercent, hp]
  · intro hInc hRed L hQ hOK p hp
    simp only [Tab.resizeUp, Tab.getActivePaneId, hAct, hInc, hRed,
      Bool.false_eq_true, if_false, if_true, Tab.resizeWholeTab, Tab.renderTab]
    simp only [Tab.reducePaneAndSurroundingsUp, hQ, hOK, Bool.false_eq_true, if_false,
      Option.getD_some, Tab.reducePaneHeightUp, Tab.increasePaneHeightUp]
    rw [getPane_foldl_ne A _
      (fun s tid htid => getPane_updatePane_ne s tid A _ (fun e => htid e.symm)) _
      (fun tid htid => by
        rcases List.mem_append.mp htid with hh | hh
        · exact band_bottomAlignedLeft_ne t A pa _ hget hPidA tid hh
        · exact band_bottomAlignedRight_ne t A pa _ hget hPidA tid hh)]
    rw [getPane_foldl_ne A _
      (fun s tid htid => getPane_updatePane_ne s tid A _ (fun e => htid e.symm)) _
      (fun tid htid heq => by
        subst heq
        have h1 := List.mem_of_mem_filter htid
        obtain ⟨q, hm, hx⟩ := paneIdsDirectlyBelow_mem t tid pa L hget hQ tid h1
        have hqpa : q = pa := mem_getPane_unique t hN tid q pa hm hget
        subst hqpa
        omega)]
    rw [getPane_updatePane_self, hget]
    simp [Pane.reduceHeightUp, Dimension.adjustPercent, hp, sub_eq_add_neg]
  · intro hInc hRed L hQ hBad
    simp only [Tab.resizeUp, Tab.getActivePaneId, hAct, hInc, hRed,
      Bool.false_eq_true, if_false, if_true, Tab.resizeWholeTab, Tab.renderTab]
    simp only [Tab.reducePaneAndSurroundingsUp, hQ, hBad, if_true, Option.getD_some]
  · intro hInc hRed
    simp only [Tab.resizeUp, Tab.getActivePaneId, hAct, hInc, hRed,
      Bool.false_eq_true, if_false, Tab.resizeWholeTab, Tab.renderTab]

/-- C2 counterexample: in the three-pane tab the active pane T (Terminal 2)
has Percent(50) cols with 50 - 3.5 >= 3.5 and a pane directly to its left, and
no pane to its right - the claim's conditions for shrinking - yet resize_right
changes nothing, because the shrink cascade aborts on the side-band pane B
(7 cells wide). -/
theorem c2_counterexample :
    (tabThreePane.getPane (PaneId.Terminal 2)).bind
        (fun p => p.positionAndSize.cols.asPercent) = some 50
    ∧ tabThreePane.paneIdsDirectlyLeftOf (PaneId.Terminal 2) = some [PaneId.Terminal 1]
    ∧ tabThreePane.paneIdsDirectlyRightOf (PaneId.Terminal 2) = none
    ∧ tabThreePane.canReducePaneAndSurroundingsRight (PaneId.Terminal 2) resizePercent = true
    ∧ tabThreePane.canIncreasePaneAndSurroundingsRight (PaneId.Terminal 2) resizePercent
        = false
    ∧ tabThreePane.resizeRight = tabThreePane := by
  refine ⟨?_, ?_, ?_, ?_, ?_, ?_⟩ <;> with_unfolding_all decide

/-- The three-pane tab with the left pane L active instead of T. -/
def tabThreePaneLActive : Tab :=
  { tabThreePane with activeTerminal := some (PaneId.Terminal 1) }

/-- Witness for C2: growing pane L rightwards adds 3.5 percent to its cols. -/
theorem c2_witness :
    ((tabThreePaneLActive.resizeRight).getPane (PaneId.Terminal 1)).map
        (fun q => q.geom.cols.constraint)
      = some (Constraint.Percent (50 + resizePercent)) :=
  (c2_resize_dispatch tabThreePaneLActive (PaneId.Terminal 1) paneSideL
    (by decide) (by decide) (by decide) rfl (by decide)).1.1
    (by with_unfolding_all decide) 50 rfl
